import Mathlib

/-! # Chat-Global: session registry, presence and message relay

A shallow embedding of the real-time part of `server.js` (the Socket.IO
handlers `join`, `sendMessage`, `disconnect`, the `connectedUsers` map, the
`checkIpBan` middleware and the routes `/api/admin/ban-user` and `/api/login`)
together with the theorems that settle the specification's claims about it.

Conventions of the embedding

* Document ids (`user._id.toString()`) and socket ids are opaque identifiers,
  represented by natural numbers.  Dates are milliseconds, natural numbers.
* The MongoDB collections are lists in insertion order.
* `connectedUsers` (a JavaScript `Map`) is an association list in insertion
  order: `set` on a present key replaces the value in place, `set` on an absent
  key appends, `delete` removes the entry of the key.
* Every `await` of a socket handler (`join`, `sendMessage`) splits the handler
  into segments, and other events may happen between two segments.  A segment
  is a function of the server state and of the awaited value; the transition
  function `step` supplies the awaited value.  The HTTP routes touch no socket
  state and are run to completion, with the awaited answers as inputs.
* Everything the server sends is appended to `emitted`, with the list of
  sockets that receive it.  `io.emit` reaches every socket that is connected
  at that moment, `socket.emit` reaches that socket (if still connected).
-/

namespace ChatGlobal

abbrev UserId := Nat
abbrev SocketId := Nat

/-! ## Data model (lines 37-65) -/

/-- A document of the `User` collection (`userSchema`, lines 37-47). -/
structure User where
  id : UserId
  username : String
  email : String
  password : String
  profilePicture : String
  isAdmin : Bool
  isBanned : Bool
  banReason : String
  banExpires : Option Nat
  createdAt : Nat
deriving DecidableEq, Repr

/-- A document of the `IpBan` collection (`ipBanSchema`, lines 49-54). -/
structure IpBan where
  ip : String
  reason : String
  bannedAt : Nat
  expiresAt : Nat
deriving DecidableEq, Repr

/-- A document of the `Message` collection (`messageSchema`, lines 56-61).
`username` and `message` hold `""` when the constructor was given `undefined`:
the `required` validator treats both alike. -/
structure Message where
  username : String
  message : String
  isAdmin : Bool
  timestamp : Nat
deriving DecidableEq, Repr

/-- A value of the `connectedUsers` map (lines 351-355). -/
structure Presence where
  username : String
  isAdmin : Bool
  socketId : SocketId
deriving DecidableEq, Repr

/-- The server-side socket object: its id, the address it connected from,
whether the connection is open, and the three properties the `join` handler
writes on it (lines 347-349).  `userId = none` is the unset property. -/
structure Socket where
  id : SocketId
  address : String
  connected : Bool
  userId : Option UserId
  username : String
  isAdmin : Bool
deriving DecidableEq, Repr

/-- The events the server sends. -/
inductive Payload where
  | userOnline (roster : List Presence)
  | recentMessages (messages : List Message)
  | newMessage (message : Message)
  | userBanned (userId : UserId) (reason : String)
deriving DecidableEq, Repr

/-- One emission: the sockets that receive it and what they receive. -/
structure Emit where
  recipients : List SocketId
  payload : Payload
deriving DecidableEq, Repr

/-- A bearer token: either signed with the server's secret and carrying
`{ id }`, or anything `jwt.verify` rejects. -/
inductive Token where
  | signed (id : UserId)
  | invalid
deriving DecidableEq, Repr

/-- The argument of the `sendMessage` event; `message = none` is an absent
`message` property. -/
structure MessageData where
  message : Option String
deriving DecidableEq, Repr

/-- The whole server: the three collections, the `connectedUsers` map, the
socket objects, the handlers suspended at an `await` (the `join` handlers
waiting for the user lookup or for the message query, and the messages whose
`save` has not answered yet), and the output (emissions and `console.error`
lines). -/
structure Server where
  users : List User
  ipBans : List IpBan
  messages : List Message
  connectedUsers : List (UserId × Presence)
  sockets : List Socket
  pendingLookups : List (SocketId × UserId)
  pendingReplays : List SocketId
  pendingSaves : List Message
  emitted : List Emit
  errorLog : List String
deriving DecidableEq, Repr

/-! ## The JavaScript `Map` -/

/-- The call `Map.prototype.set`. -/
def mapSet (m : List (UserId × Presence)) (k : UserId) (v : Presence) :
    List (UserId × Presence) :=
  match m with
  | [] => [(k, v)]
  | e :: rest => if e.1 = k then (k, v) :: rest else e :: mapSet rest k v

/-- The call `Map.prototype.delete`. -/
def mapDelete (m : List (UserId × Presence)) (k : UserId) : List (UserId × Presence) :=
  match m with
  | [] => []
  | e :: rest => if e.1 = k then rest else e :: mapDelete rest k

/-- The call `Map.prototype.get`. -/
def mapGet (m : List (UserId × Presence)) (k : UserId) : Option Presence :=
  match m with
  | [] => none
  | e :: rest => if e.1 = k then some e.2 else mapGet rest k

/-- The expression `Array.from(map.values())`. -/
def mapValues (m : List (UserId × Presence)) : List Presence :=
  m.map Prod.snd

/-- The keys of the map, in insertion order. -/
def mapKeys (m : List (UserId × Presence)) : List UserId :=
  m.map Prod.fst

/-! ## Socket.IO primitives -/

/-- The socket object with the given id. -/
def getSocket (s : Server) (sid : SocketId) : Option Socket :=
  s.sockets.find? (fun k => k.id == sid)

/-- Apply `f` to the socket object with the given id. -/
def updateSocket (s : Server) (sid : SocketId) (f : Socket → Socket) : Server :=
  { s with sockets := s.sockets.map (fun k => if k.id = sid then f k else k) }

/-- Ids of the sockets whose connection is open. -/
def connectedIds (s : Server) : List SocketId :=
  (s.sockets.filter (fun k => k.connected)).map (fun k => k.id)

/-- The call `io.emit(event, payload)`: to every connected socket. -/
def ioEmit (s : Server) (p : Payload) : Server :=
  { s with emitted := s.emitted ++ [⟨connectedIds s, p⟩] }

/-- The call `socket.emit(event, payload)`: to this socket only. -/
def socketEmit (s : Server) (sid : SocketId) (p : Payload) : Server :=
  { s with emitted := s.emitted ++ [⟨(connectedIds s).filter (fun i => i == sid), p⟩] }

/-- The `disconnect` handler (lines 387-392). -/
def disconnectHandler (s : Server) (sid : SocketId) : Server :=
  match getSocket s sid with
  | none => s
  | some sock =>
    match sock.userId with
    | none => s
    | some uid =>
      let s1 := { s with connectedUsers := mapDelete s.connectedUsers uid }
      ioEmit s1 (.userOnline (mapValues s1.connectedUsers))

/-- Closing a connection, by `socket.disconnect()` or by the transport: a
socket that is still connected is marked closed and its `disconnect` handler
runs once; a socket already closed is left alone. -/
def socketDisconnect (s : Server) (sid : SocketId) : Server :=
  match getSocket s sid with
  | none => s
  | some sock =>
    if sock.connected then
      disconnectHandler (updateSocket s sid (fun k => { k with connected := false })) sid
    else s

/-- The handler of `io.on('connection')` (line 336): a new socket object. -/
def connection (s : Server) (sid : SocketId) (address : String) : Server :=
  { s with sockets := s.sockets ++ [⟨sid, address, true, none, "", false⟩] }

/-! ## The `join` handler (lines 337-368) -/

/-- The call `jwt.verify(token, secret)`: the decoded id, or `none` when it throws. -/
def jwtVerify : Token → Option UserId
  | .signed id => some id
  | .invalid => none

/-- The query `User.findById(id)`. -/
def findById (users : List User) (id : UserId) : Option User :=
  users.find? (fun u => u.id == id)

/-- Insert `m` into a list sorted by ascending timestamp, after the elements
with the same timestamp. -/
def insertByTimestamp (m : Message) : List Message → List Message
  | [] => [m]
  | x :: rest => if m.timestamp < x.timestamp then m :: x :: rest
                 else x :: insertByTimestamp m rest

/-- Stable sort by ascending timestamp: `.sort({ timestamp: 1 })`. -/
def sortByTimestamp (ms : List Message) : List Message :=
  ms.foldl (fun acc m => insertByTimestamp m acc) []

/-- The query of lines 359-362.  The builder keeps one sort specification and
a later `.sort` on the same key replaces the earlier one, so the query that
runs is `find().sort({ timestamp: 1 }).limit(50)`. -/
def recentMessagesQuery (messages : List Message) : List Message :=
  (sortByTimestamp messages).take 50

/-- Insert `m` into a list sorted by descending timestamp, after the elements
with the same timestamp. -/
def insertByTimestampDesc (m : Message) : List Message → List Message
  | [] => [m]
  | x :: rest => if x.timestamp < m.timestamp then m :: x :: rest
                 else x :: insertByTimestampDesc m rest

/-- Stable sort by descending timestamp: `.sort({ timestamp: -1 })`. -/
def sortByTimestampDesc (ms : List Message) : List Message :=
  ms.foldl (fun acc m => insertByTimestampDesc m acc) []

/-- A query under construction on the `Message` collection: the direction
recorded for the sort key `timestamp` (`1` or `-1`) and the limit, if set. -/
structure Query where
  sortOption : Option Int
  limitOption : Option Nat
deriving DecidableEq, Repr

/-- The call `Message.find()`: nothing set yet. -/
def Query.find : Query :=
  ⟨none, none⟩

/-- The call `.sort({ timestamp: direction })`: the direction recorded for the
key `timestamp` is overwritten. -/
def Query.sort (q : Query) (direction : Int) : Query :=
  { q with sortOption := some direction }

/-- The call `.limit(n)`. -/
def Query.limit (q : Query) (n : Nat) : Query :=
  { q with limitOption := some n }

/-- Running the query (the `await`): sort as recorded, then cut at the limit. -/
def Query.exec (q : Query) (messages : List Message) : List Message :=
  let sorted :=
    match q.sortOption with
    | none => messages
    | some direction =>
      if direction < 0 then sortByTimestampDesc messages else sortByTimestamp messages
  match q.limitOption with
  | none => sorted
  | some n => sorted.take n

/-- The chain of lines 359-362 as written:
`Message.find().sort({ timestamp: -1 }).limit(50).sort({ timestamp: 1 })`. -/
def joinReplayChain (messages : List Message) : List Message :=
  (((Query.find.sort (-1)).limit 50).sort 1).exec messages

/-- The replay as the specification words it: the `min(50, n)` messages with
the largest timestamps, oldest first. -/
def specReplay (messages : List Message) : List Message :=
  (sortByTimestamp messages).drop ((sortByTimestamp messages).length - 50)

/-- First segment of `join` (line 339 and the `catch` of line 366): verify the
token; on failure disconnect, otherwise suspend on `User.findById`. -/
def joinStart (s : Server) (sid : SocketId) (token : Token) : Server :=
  match jwtVerify token with
  | none => socketDisconnect s sid
  | some uid => { s with pendingLookups := s.pendingLookups ++ [(sid, uid)] }

/-- Second segment of `join` (lines 340-357), resumed with the result of
`User.findById`: `none` when the query rejected (the `catch`), otherwise the
document found, if any.  It ends suspended on `Message.find()`. -/
def joinAdmit (s : Server) (sid : SocketId) (lookup : Option (Option User)) : Server :=
  match lookup with
  | none => socketDisconnect s sid
  | some none => socketDisconnect s sid
  | some (some user) =>
    if user.isBanned then socketDisconnect s sid
    else
      let s1 := updateSocket s sid (fun k =>
        { k with userId := some user.id, username := user.username, isAdmin := user.isAdmin })
      let entry : Presence := ⟨user.username, user.isAdmin, sid⟩
      let s2 := { s1 with connectedUsers := mapSet s1.connectedUsers user.id entry }
      let s3 := ioEmit s2 (.userOnline (mapValues s2.connectedUsers))
      { s3 with pendingReplays := s3.pendingReplays ++ [sid] }

/-- Third segment of `join` (lines 359-364), resumed with the result of the
message query: `none` when the query rejected (the `catch`). -/
def joinReplay (s : Server) (sid : SocketId) (result : Option (List Message)) : Server :=
  match result with
  | none => socketDisconnect s sid
  | some recent => socketEmit s sid (.recentMessages recent)

/-! ## The `sendMessage` handler (lines 370-385) -/

/-- The `required` validators of `messageSchema` (lines 57-58): a string
passes when it is not empty. -/
def validateMessage (m : Message) : Bool :=
  m.username != "" && m.message != ""

/-- The call `message.save()`: it validates, then inserts; `storeOk` tells
whether the collection accepts the insert.  `false` is a rejected promise. -/
def messageSave (m : Message) (storeOk : Bool) : Bool :=
  validateMessage m && storeOk

/-- First segment of `sendMessage` (lines 371-380): the guard, the construction
of the message from the values recorded on the socket, and the suspension on
`await message.save()`.  `now` is the clock read by the `timestamp` default. -/
def sendMessageStart (s : Server) (sid : SocketId) (messageData : MessageData) (now : Nat) :
    Server :=
  match getSocket s sid with
  | none => s
  | some sock =>
    match sock.userId with
    | none => s
    | some _ =>
      { s with pendingSaves := s.pendingSaves ++
          [⟨sock.username, messageData.message.getD "", sock.isAdmin, now⟩] }

/-- Second segment of `sendMessage` (lines 380-384), resumed when the `save` of
`message` answers, in whatever state the server is by then: on success the
message is in the collection and is broadcast, otherwise the `catch` writes one
line to `console.error`. -/
def sendMessageSaved (s : Server) (message : Message) (storeOk : Bool) : Server :=
  if messageSave message storeOk then
    ioEmit { s with messages := s.messages ++ [message] } (.newMessage message)
  else
    { s with errorLog := s.errorLog ++ ["Erro ao salvar mensagem:"] }

/-- The `sendMessage` handler when nothing happens while its `save` is in
flight: the second segment right after the first, the pending saves left as
they were (`sendMessage_eq_segments`). -/
def sendMessage (s : Server) (sid : SocketId) (messageData : MessageData) (now : Nat)
    (storeOk : Bool) : Server :=
  match getSocket s sid with
  | none => s
  | some sock =>
    match sock.userId with
    | none => s
    | some _ =>
      sendMessageSaved s ⟨sock.username, messageData.message.getD "", sock.isAdmin, now⟩ storeOk

/-! ## The client (`public/script.js`) -/

/-- The characters `String.prototype.trim` removes: the ECMAScript white space
and line terminator code points. -/
def jsIsWhiteSpace (c : Char) : Bool :=
  c.toNat ∈ [9, 10, 11, 12, 13, 32, 160, 5760, 8232, 8233, 8239, 8287, 12288, 65279]
    || (8192 ≤ c.toNat && c.toNat ≤ 8202)

/-- The method `String.prototype.trim`. -/
def jsTrim (text : String) : String :=
  ⟨((text.data.dropWhile jsIsWhiteSpace).reverse.dropWhile jsIsWhiteSpace).reverse⟩

/-- A string of white space only (the empty string included). -/
def whitespaceOnly (text : String) : Bool :=
  text.data.all jsIsWhiteSpace

/-- The method `ChatApp.sendMessage` (script.js lines 253-261): what the client
emits as `sendMessage` for the content of the input field, if anything.
`hasSocket` is the truth value of `this.socket`. -/
def clientSendMessage (input : String) (hasSocket : Bool) : Option MessageData :=
  let message := jsTrim input
  if message != "" && hasSocket then some ⟨some message⟩ else none

/-- The client's `userBanned` handler (script.js lines 245-250): whether the
client whose user is `currentUserId` logs out, which disconnects its socket
(`logout`, lines 569-575). -/
def clientLogsOutOnUserBanned (currentUserId : UserId) (dataUserId : UserId) : Bool :=
  dataUserId == currentUserId

/-! ## HTTP: `checkIpBan`, `authenticateToken`, `/api/admin/ban-user` -/

/-- What an HTTP handler answers: the status and the `error` or `message`
string of the JSON body (empty for `sendStatus`). -/
structure Response where
  status : Nat
  text : String
deriving DecidableEq, Repr

/-- The query of `checkIpBan` (lines 92-95): a record for this address whose
`expiresAt` is later than now. -/
def findIpBan (ipBans : List IpBan) (clientIp : String) (now : Nat) : Option IpBan :=
  ipBans.find? (fun b => b.ip == clientIp && decide (now < b.expiresAt))

/-- The middleware `checkIpBan` (lines 90-106): `some` response when the
request is refused, `none` when `next()` is called. -/
def checkIpBan (ipBans : List IpBan) (clientIp : String) (now : Nat) : Option Response :=
  match findIpBan ipBans clientIp now with
  | some _ => some ⟨403, "IP banido"⟩
  | none => none

/-- The middleware `authenticateToken` (lines 68-87): the status it sends, or
the user it stores in `req.user`.  `auth = none` is a request without token. -/
def authenticateToken (users : List User) (auth : Option Token) : Except Nat User :=
  match auth with
  | none => .error 401
  | some token =>
    match jwtVerify token with
    | none => .error 403
    | some id =>
      match findById users id with
      | none => .error 403
      | some userData => if userData.isBanned then .error 403 else .ok userData

/-- The body of a ban-user request. -/
structure BanRequest where
  userId : UserId
  reason : String
  duration : Nat
deriving DecidableEq, Repr

/-- Replace the document with the id of `u` by `u`: `user.save()`. -/
def saveUser (users : List User) (u : User) : List User :=
  users.map (fun v => if v.id = u.id then u else v)

/-- The route `/api/admin/ban-user` (lines 287-310), behind
`authenticateToken`.  `now` is `Date.now()`, `saveOk` tells whether
`user.save()` succeeds. -/
def banUser (s : Server) (auth : Option Token) (body : BanRequest) (now : Nat)
    (saveOk : Bool) : Server × Response :=
  match authenticateToken s.users auth with
  | .error status => (s, ⟨status, ""⟩)
  | .ok reqUser =>
    if !reqUser.isAdmin then (s, ⟨403, "Acesso negado"⟩)
    else
      match findById s.users body.userId with
      | none => (s, ⟨404, "Usuário não encontrado"⟩)
      | some user =>
        if saveOk then
          let banned : User :=
            { user with isBanned := true, banReason := body.reason,
                        banExpires := some (now + body.duration * 60 * 1000) }
          let s1 := { s with users := saveUser s.users banned }
          (ioEmit s1 (.userBanned body.userId body.reason), ⟨200, "Usuário banido com sucesso"⟩)
        else (s, ⟨500, "Erro interno do servidor"⟩)

/-! ## HTTP: `/api/login` (lines 161-208) -/

/-- The body of a login request. -/
structure LoginRequest where
  username : String
  password : String
deriving DecidableEq, Repr

/-- The `user` object of a successful login answer (lines 198-203). -/
structure UserView where
  id : UserId
  username : String
  isAdmin : Bool
  profilePicture : String
deriving DecidableEq, Repr

/-- What `/api/login` answers: the status, the `error` string (empty on
success), the ban detail `reason` and `expiresAt`, the token and the `user`
object; a field that the JSON body does not have is `none`. -/
structure LoginResponse where
  status : Nat
  error : String
  reason : Option String
  expiresAt : Option Nat
  token : Option Token
  user : Option UserView
deriving DecidableEq, Repr

/-- The query `User.findOne({ username })`. -/
def findOneByUsername (users : List User) (username : String) : Option User :=
  users.find? (fun u => u.username == username)

/-- The call `jwt.sign({ id }, secret)`. -/
def jwtSign (id : UserId) : Token :=
  .signed id

/-- The password check and what follows it (lines 186-204).  `validPassword`
is the answer of `bcrypt.compare(password, user.password)`. -/
def loginPasswordCheck (user : User) (validPassword : Bool) : LoginResponse :=
  if !validPassword then ⟨400, "Credenciais inválidas", none, none, none, none⟩
  else ⟨200, "", none, none, some (jwtSign user.id),
    some ⟨user.id, user.username, user.isAdmin, user.profilePicture⟩⟩

/-- The assignments of lines 179-181: the ban is cleared on the document. -/
def clearBan (user : User) : User :=
  { user with isBanned := false, banReason := "", banExpires := none }

/-- The handler of `/api/login` (lines 161-208), entered once `checkIpBan` has
called `next()`.  `now` is `new Date()`, `saveOk` tells whether `user.save()`
succeeds (otherwise the `catch` answers 500), `validPassword` is the answer of
`bcrypt.compare`. -/
def loginHandler (s : Server) (body : LoginRequest) (now : Nat) (saveOk : Bool)
    (validPassword : Bool) : Server × LoginResponse :=
  match findOneByUsername s.users body.username with
  | none => (s, ⟨400, "Credenciais inválidas", none, none, none, none⟩)
  | some user =>
    if user.isBanned then
      match user.banExpires with
      | none => (s, loginPasswordCheck user validPassword)
      | some banExpires =>
        if now < banExpires then
          (s, ⟨403, "Conta banida", some user.banReason, some banExpires, none, none⟩)
        else if banExpires ≤ now then
          if saveOk then
            ({ s with users := saveUser s.users (clearBan user) },
              loginPasswordCheck (clearBan user) validPassword)
          else (s, ⟨500, "Erro interno do servidor", none, none, none, none⟩)
        else (s, loginPasswordCheck user validPassword)
    else (s, loginPasswordCheck user validPassword)

/-- The route `/api/login`: `checkIpBan`, then the handler. -/
def login (s : Server) (clientIp : String) (body : LoginRequest) (now : Nat) (saveOk : Bool)
    (validPassword : Bool) : Server × LoginResponse :=
  match findIpBan s.ipBans clientIp now with
  | some ipBan => (s, ⟨403, "IP banido", some ipBan.reason, some ipBan.expiresAt, none, none⟩)
  | none => loginHandler s body now saveOk validPassword

/-! ## The server as a transition system -/

/-- What can happen to the server. -/
inductive Event where
  /-- a client connects from `address`; the library gives the socket a fresh id -/
  | connection (sid : SocketId) (address : String)
  /-- the client of socket `sid` emits `join` -/
  | join (sid : SocketId) (token : Token)
  /-- the `User.findById` of a suspended `join` answers (`ok = false`: rejects) -/
  | lookupDone (sid : SocketId) (id : UserId) (ok : Bool)
  /-- the `Message.find` of a suspended `join` answers (`ok = false`: rejects) -/
  | replayDone (sid : SocketId) (ok : Bool)
  /-- the client of socket `sid` emits `sendMessage` and the `save` answers
  before anything else happens -/
  | sendMessage (sid : SocketId) (messageData : MessageData) (now : Nat) (storeOk : Bool)
  /-- the client of socket `sid` emits `sendMessage`: the handler runs up to
  `await message.save()` -/
  | sendMessageStart (sid : SocketId) (messageData : MessageData) (now : Nat)
  /-- the `save` of a pending message answers (`storeOk = false`: the insert is
  refused) and the suspended `sendMessage` resumes -/
  | saveDone (message : Message) (storeOk : Bool)
  /-- the connection of socket `sid` closes -/
  | disconnect (sid : SocketId)
  /-- an HTTP request to `/api/admin/ban-user` -/
  | banUser (auth : Option Token) (body : BanRequest) (now : Nat) (saveOk : Bool)
  /-- an HTTP request to `/api/login` -/
  | login (clientIp : String) (body : LoginRequest) (now : Nat) (saveOk : Bool)
      (validPassword : Bool)
deriving DecidableEq, Repr

/-- Whether socket `sid` exists and its connection is open: only then can a
client event arrive on it. -/
def isOpen (s : Server) (sid : SocketId) : Bool :=
  match getSocket s sid with
  | some sock => sock.connected
  | none => false

/-- One transition.  An event that cannot happen in `s` (a client event on a
closed socket, an answer nobody waits for, a socket id already in use) leaves
`s` as it is. -/
def step (s : Server) : Event → Server
  | .connection sid address =>
    if (getSocket s sid).isSome then s else connection s sid address
  | .join sid token =>
    if isOpen s sid then joinStart s sid token else s
  | .lookupDone sid id ok =>
    if (sid, id) ∈ s.pendingLookups then
      let s1 := { s with pendingLookups := s.pendingLookups.erase (sid, id) }
      joinAdmit s1 sid (if ok then some (findById s1.users id) else none)
    else s
  | .replayDone sid ok =>
    if sid ∈ s.pendingReplays then
      let s1 := { s with pendingReplays := s.pendingReplays.erase sid }
      joinReplay s1 sid (if ok then some (recentMessagesQuery s1.messages) else none)
    else s
  | .sendMessage sid messageData now storeOk =>
    if isOpen s sid then sendMessage s sid messageData now storeOk else s
  | .sendMessageStart sid messageData now =>
    if isOpen s sid then sendMessageStart s sid messageData now else s
  | .saveDone message storeOk =>
    if message ∈ s.pendingSaves then
      sendMessageSaved { s with pendingSaves := s.pendingSaves.erase message } message storeOk
    else s
  | .disconnect sid => socketDisconnect s sid
  | .banUser auth body now saveOk => (banUser s auth body now saveOk).1
  | .login clientIp body now saveOk validPassword =>
    (login s clientIp body now saveOk validPassword).1

/-- Run a sequence of events. -/
def run (s : Server) (events : List Event) : Server :=
  events.foldl step s

/-- The server right after start: the collections as found in the database,
nobody connected. -/
def init (users : List User) (ipBans : List IpBan) (messages : List Message) : Server :=
  { users := users, ipBans := ipBans, messages := messages, connectedUsers := [],
    sockets := [], pendingLookups := [], pendingReplays := [], pendingSaves := [],
    emitted := [], errorLog := [] }

/-- The states the server can be in. -/
def Reachable (s : Server) : Prop :=
  ∃ users ipBans messages events, s = run (init users ipBans messages) events

/-- A whole `join` with nothing happening in between: the event, then the two
answers from the database. -/
def joinEvents (sid : SocketId) (token : Token) : List Event :=
  match jwtVerify token with
  | none => [.join sid token]
  | some id => [.join sid token, .lookupDone sid id true, .replayDone sid true]

end ChatGlobal

/-! ## Concrete data used by the examples -/

namespace ChatGlobal

/-- An administrator account. -/
def root : User := ⟨9, "root", "root@chat", "hash9", "", true, false, "", none, 0⟩

/-- An ordinary account. -/
def alice : User := ⟨1, "alice", "alice@chat", "hash1", "", false, false, "", none, 0⟩

/-- Another ordinary account. -/
def bob : User := ⟨2, "bob", "bob@chat", "hash2", "", false, false, "", none, 0⟩

/-- An account whose ban ran out at time 1000 and whose flag is still set. -/
def carol : User := ⟨3, "carol", "carol@chat", "hash3", "", false, true, "spam", some 1000, 0⟩

/-- An account banned until time 9000. -/
def dave : User := ⟨4, "dave", "dave@chat", "hash4", "", false, true, "flood", some 9000, 0⟩

/-- The database the examples start from. -/
def db : List User := [root, alice, bob, carol]

/-- Socket 10 connects and joins as `alice`. -/
def aliceJoins : List Event :=
  [.connection 10 "10.0.0.1"] ++ joinEvents 10 (.signed 1)

/-- Socket 10 connected and joined as `alice`, nothing else. -/
def aliceOnline : Server :=
  run (init db [] []) aliceJoins

/-- After `aliceJoins`, socket 20 connects and emits `join` with a token of
`alice`; its user lookup has not answered yet. -/
def aliceSecondJoinPending : Server :=
  run (init db [] []) (aliceJoins ++ [.connection 20 "10.0.0.2", .join 20 (.signed 1)])

/-- After `aliceJoins`, socket 20 connects and joins as `alice` too. -/
def aliceTwice : Server :=
  run (init db [] []) (aliceJoins ++ [.connection 20 "10.0.0.2"] ++ joinEvents 20 (.signed 1))

/-- After `aliceTwice`, the connection of socket 10 closes. -/
def aliceFirstLeaves : Server :=
  run (init db [] [])
    (aliceJoins ++ [.connection 20 "10.0.0.2"] ++ joinEvents 20 (.signed 1) ++ [.disconnect 10])

/-- Socket 10 joins as `alice`, joins again with a token of `bob`, and closes. -/
def rejoinThenLeave : Server :=
  run (init db [] []) (aliceJoins ++ joinEvents 10 (.signed 2) ++ [.disconnect 10])

/-- Socket 10 emits `join` with a token of `alice` and closes before the user
lookup answers; then the lookup and the message query answer. -/
def leaveDuringLookup : Server :=
  run (init db [] [])
    [.connection 10 "10.0.0.1", .join 10 (.signed 1), .disconnect 10,
     .lookupDone 10 1 true, .replayDone 10 true]

/-- Socket 10 joined as `alice` and socket 20 joined as `bob`. -/
def aliceAndBob : Server :=
  run (init db [] []) (aliceJoins ++ [.connection 20 "10.0.0.2"] ++ joinEvents 20 (.signed 2))

/-- A ban of the address `10.0.0.1` that runs until time 5000. -/
def addressBan : IpBan := ⟨"10.0.0.1", "abuse", 0, 5000⟩

/-- Socket 30 connects and emits `join` with a token of `carol`. -/
def carolJoins : List Event :=
  [.connection 30 "10.0.0.3"] ++ joinEvents 30 (.signed 3)

/-- Fifty-one messages of `alice`, stored in the order of their timestamps
1 to 51. -/
def store51 : List Message :=
  (List.range 51).map (fun i => ⟨"alice", "m", false, i + 1⟩)

/-- The state `aliceAndBob` at the moment the library runs the `disconnect`
handler of socket 10: the socket is already marked closed. -/
def aliceClosing : Server :=
  updateSocket aliceAndBob 10 (fun k => { k with connected := false })

/-- After `aliceJoins`, socket 20 connects and does not join. -/
def aliceAndGuest : Server :=
  run (init db [] []) (aliceJoins ++ [.connection 20 "10.0.0.2"])

/-! ## Invariants and outcomes -/

/-- No two entries of `connectedUsers` have the same key. -/
def NodupKeys (s : Server) : Prop :=
  (mapKeys s.connectedUsers).Nodup

/-- The outcome of a refused `join` on socket `sid`, from `s` to `t`: the
connection is closed, `socket.userId` is unset, and neither `connectedUsers`
nor the emissions changed (no `userOnline`, no `recentMessages`). -/
def RefusedUntouched (s t : Server) (sid : SocketId) : Prop :=
  isOpen t sid = false ∧
  (getSocket t sid).map (fun k => k.userId) = some none ∧
  t.connectedUsers = s.connectedUsers ∧
  t.emitted = s.emitted

/-- The ids of the socket objects, in the order of connection. -/
def socketIds (s : Server) : List SocketId :=
  s.sockets.map (fun k => k.id)

/-- No two socket objects have the same id. -/
def NodupSocketIds (s : Server) : Prop :=
  (socketIds s).Nodup

/-- The payloads that announce a message or the roster: `newMessage` and
`userOnline`. -/
def isChatBroadcast : Payload → Bool
  | .newMessage _ => true
  | .userOnline _ => true
  | .recentMessages _ => false
  | .userBanned _ _ => false

/-- From the emissions `old` to the state `t`, emissions were only appended,
and every appended `newMessage` or `userOnline` went to exactly the sockets
that are connected in `t`. -/
def BroadcastsToOpen (old : List Emit) (t : Server) : Prop :=
  ∃ news, t.emitted = old ++ news ∧
    ∀ em ∈ news, isChatBroadcast em.payload = true → em.recipients = connectedIds t

/-! ## Lemmas: the map -/

theorem mapKeys_mapSet_of_mem (m : List (UserId × Presence)) (k : UserId) (v : Presence)
    (h : k ∈ mapKeys m) : mapKeys (mapSet m k v) = mapKeys m := by
  induction m with
  | nil => simp [mapKeys] at h
  | cons e rest ih =>
    by_cases he : e.1 = k
    · simp [mapSet, mapKeys, he]
    · have hk : k ∈ mapKeys rest := by
        simp only [mapKeys, List.map_cons, List.mem_cons] at h
        rcases h with h | h
        · exact absurd h.symm he
        · exact h
      have := ih hk
      simp only [mapKeys] at this
      simp [mapSet, mapKeys, he, this]

theorem mapKeys_mapSet_of_not_mem (m : List (UserId × Presence)) (k : UserId) (v : Presence)
    (h : k ∉ mapKeys m) : mapKeys (mapSet m k v) = mapKeys m ++ [k] := by
  induction m with
  | nil => simp [mapSet, mapKeys]
  | cons e rest ih =>
    simp only [mapKeys, List.map_cons, List.mem_cons, not_or] at h
    have he : ¬ e.1 = k := fun h' => h.1 h'.symm
    have := ih h.2
    simp only [mapKeys] at this
    simp [mapSet, mapKeys, he, this]

theorem nodup_mapKeys_mapSet (m : List (UserId × Presence)) (k : UserId) (v : Presence)
    (h : (mapKeys m).Nodup) : (mapKeys (mapSet m k v)).Nodup := by
  by_cases hk : k ∈ mapKeys m
  · rw [mapKeys_mapSet_of_mem m k v hk]; exact h
  · rw [mapKeys_mapSet_of_not_mem m k v hk]
    exact List.Nodup.append h (List.nodup_singleton k) (by simpa using hk)

theorem mapKeys_mapDelete_sublist (m : List (UserId × Presence)) (k : UserId) :
    (mapKeys (mapDelete m k)).Sublist (mapKeys m) := by
  induction m with
  | nil => simp [mapDelete, mapKeys]
  | cons e rest ih =>
    by_cases he : e.1 = k
    · simp [mapDelete, mapKeys, he]
    · simp only [mapKeys] at ih
      simp [mapDelete, mapKeys, he, ih]

theorem nodup_mapKeys_mapDelete (m : List (UserId × Presence)) (k : UserId)
    (h : (mapKeys m).Nodup) : (mapKeys (mapDelete m k)).Nodup :=
  List.Nodup.sublist (mapKeys_mapDelete_sublist m k) h

theorem not_mem_mapKeys_mapDelete (m : List (UserId × Presence)) (k : UserId)
    (h : (mapKeys m).Nodup) : k ∉ mapKeys (mapDelete m k) := by
  induction m with
  | nil => simp [mapDelete, mapKeys]
  | cons e rest ih =>
    simp only [mapKeys, List.map_cons, List.nodup_cons] at h
    by_cases he : e.1 = k
    · simp only [mapDelete, he, if_true]
      rw [← he]; exact h.1
    · have := ih h.2
      simp only [mapKeys] at this
      simp only [mapDelete, he, if_false, mapKeys, List.map_cons, List.mem_cons, not_or]
      exact ⟨fun h' => he h'.symm, this⟩

theorem filter_mapSet (m : List (UserId × Presence)) (k : UserId) (v : Presence)
    (h : (mapKeys m).Nodup) :
    (mapSet m k v).filter (fun e => e.1 == k) = [(k, v)] := by
  induction m with
  | nil => simp [mapSet]
  | cons e rest ih =>
    simp only [mapKeys, List.map_cons, List.nodup_cons] at h
    by_cases he : e.1 = k
    · have hrest : rest.filter (fun e => e.1 == k) = [] := by
        rw [List.filter_eq_nil_iff]
        intro a ha hak
        have : a.1 = k := by simpa using hak
        exact h.1 (by rw [he, ← this]; exact List.mem_map_of_mem Prod.fst ha)
      simp [mapSet, he, hrest]
    · have := ih h.2
      simp [mapSet, he, this]

theorem mapGet_mapSet (m : List (UserId × Presence)) (k : UserId) (v : Presence) :
    mapGet (mapSet m k v) k = some v := by
  induction m with
  | nil => simp [mapSet, mapGet]
  | cons e rest ih =>
    by_cases he : e.1 = k
    · simp [mapSet, mapGet, he]
    · simp [mapSet, mapGet, he, ih]

/-! ## Lemmas: sockets and emissions -/

@[simp] theorem ioEmit_connectedUsers (s : Server) (p : Payload) :
    (ioEmit s p).connectedUsers = s.connectedUsers := rfl

@[simp] theorem ioEmit_sockets (s : Server) (p : Payload) :
    (ioEmit s p).sockets = s.sockets := rfl

@[simp] theorem ioEmit_emitted (s : Server) (p : Payload) :
    (ioEmit s p).emitted = s.emitted ++ [⟨connectedIds s, p⟩] := rfl

@[simp] theorem socketEmit_connectedUsers (s : Server) (sid : SocketId) (p : Payload) :
    (socketEmit s sid p).connectedUsers = s.connectedUsers := rfl

@[simp] theorem updateSocket_connectedUsers (s : Server) (sid : SocketId) (f : Socket → Socket) :
    (updateSocket s sid f).connectedUsers = s.connectedUsers := rfl

theorem getSocket_id {s : Server} {sid : SocketId} {sock : Socket}
    (h : getSocket s sid = some sock) : sock.id = sid := by
  have := List.find?_some h
  simpa using this

theorem getSocket_mem {s : Server} {sid : SocketId} {sock : Socket}
    (h : getSocket s sid = some sock) : sock ∈ s.sockets :=
  List.mem_of_find?_eq_some h

theorem mem_connectedIds_of_isOpen {s : Server} {sid : SocketId}
    (h : isOpen s sid = true) : sid ∈ connectedIds s := by
  unfold isOpen at h
  cases hg : getSocket s sid with
  | none => simp [hg] at h
  | some sock =>
    simp only [hg] at h
    simp only [connectedIds, List.mem_map, List.mem_filter]
    exact ⟨sock, ⟨getSocket_mem hg, h⟩, getSocket_id hg⟩

/-! ## Lemmas: `NodupKeys` is an invariant -/

theorem nodupKeys_disconnectHandler (s : Server) (sid : SocketId) (h : NodupKeys s) :
    NodupKeys (disconnectHandler s sid) := by
  unfold disconnectHandler
  split
  · exact h
  · split
    · exact h
    · exact nodup_mapKeys_mapDelete _ _ h

theorem nodupKeys_socketDisconnect (s : Server) (sid : SocketId) (h : NodupKeys s) :
    NodupKeys (socketDisconnect s sid) := by
  unfold socketDisconnect
  split
  · exact h
  · split
    · exact nodupKeys_disconnectHandler _ sid h
    · exact h

theorem nodupKeys_joinStart (s : Server) (sid : SocketId) (token : Token) (h : NodupKeys s) :
    NodupKeys (joinStart s sid token) := by
  unfold joinStart
  cases jwtVerify token with
  | none => exact nodupKeys_socketDisconnect s sid h
  | some uid => exact h

theorem nodupKeys_joinAdmit (s : Server) (sid : SocketId) (lookup : Option (Option User))
    (h : NodupKeys s) : NodupKeys (joinAdmit s sid lookup) := by
  unfold joinAdmit
  match lookup with
  | none => exact nodupKeys_socketDisconnect s sid h
  | some none => exact nodupKeys_socketDisconnect s sid h
  | some (some user) =>
    by_cases hb : user.isBanned = true
    · simp only [hb, if_true]
      exact nodupKeys_socketDisconnect s sid h
    · simp only [hb]
      exact nodup_mapKeys_mapSet _ _ _ h

theorem nodupKeys_joinReplay (s : Server) (sid : SocketId) (result : Option (List Message))
    (h : NodupKeys s) : NodupKeys (joinReplay s sid result) := by
  unfold joinReplay
  cases result with
  | none => exact nodupKeys_socketDisconnect s sid h
  | some recent => exact h

theorem sendMessageStart_frame (s : Server) (sid : SocketId) (messageData : MessageData)
    (now : Nat) :
    (sendMessageStart s sid messageData now).connectedUsers = s.connectedUsers ∧
    (sendMessageStart s sid messageData now).sockets = s.sockets ∧
    (sendMessageStart s sid messageData now).emitted = s.emitted ∧
    (sendMessageStart s sid messageData now).messages = s.messages := by
  unfold sendMessageStart
  split
  · exact ⟨rfl, rfl, rfl, rfl⟩
  · split <;> exact ⟨rfl, rfl, rfl, rfl⟩

theorem sendMessageSaved_frame (s : Server) (message : Message) (storeOk : Bool) :
    (sendMessageSaved s message storeOk).connectedUsers = s.connectedUsers ∧
    (sendMessageSaved s message storeOk).sockets = s.sockets := by
  unfold sendMessageSaved
  split <;> exact ⟨rfl, rfl⟩

theorem sendMessage_connectedUsers (s : Server) (sid : SocketId) (messageData : MessageData)
    (now : Nat) (storeOk : Bool) :
    (sendMessage s sid messageData now storeOk).connectedUsers = s.connectedUsers := by
  unfold sendMessage
  split
  · rfl
  · split
    · rfl
    · unfold sendMessageSaved
      split <;> rfl

theorem banUser_connectedUsers (s : Server) (auth : Option Token) (body : BanRequest)
    (now : Nat) (saveOk : Bool) :
    (banUser s auth body now saveOk).1.connectedUsers = s.connectedUsers := by
  unfold banUser
  split
  · rfl
  · split
    · rfl
    · split
      · rfl
      · split <;> rfl

theorem loginHandler_frame (s : Server) (body : LoginRequest) (now : Nat) (saveOk : Bool)
    (validPassword : Bool) :
    (loginHandler s body now saveOk validPassword).1.connectedUsers = s.connectedUsers ∧
    (loginHandler s body now saveOk validPassword).1.sockets = s.sockets ∧
    (loginHandler s body now saveOk validPassword).1.emitted = s.emitted := by
  unfold loginHandler
  split
  · exact ⟨rfl, rfl, rfl⟩
  · split
    · split
      · exact ⟨rfl, rfl, rfl⟩
      · split
        · exact ⟨rfl, rfl, rfl⟩
        · split
          · split <;> exact ⟨rfl, rfl, rfl⟩
          · exact ⟨rfl, rfl, rfl⟩
    · exact ⟨rfl, rfl, rfl⟩

theorem login_frame (s : Server) (clientIp : String) (body : LoginRequest) (now : Nat)
    (saveOk : Bool) (validPassword : Bool) :
    (login s clientIp body now saveOk validPassword).1.connectedUsers = s.connectedUsers ∧
    (login s clientIp body now saveOk validPassword).1.sockets = s.sockets ∧
    (login s clientIp body now saveOk validPassword).1.emitted = s.emitted := by
  unfold login
  split
  · exact ⟨rfl, rfl, rfl⟩
  · exact loginHandler_frame s body now saveOk validPassword

theorem login_connectedUsers (s : Server) (clientIp : String) (body : LoginRequest) (now : Nat)
    (saveOk : Bool) (validPassword : Bool) :
    (login s clientIp body now saveOk validPassword).1.connectedUsers = s.connectedUsers :=
  (login_frame s clientIp body now saveOk validPassword).1

theorem nodupKeys_step (s : Server) (e : Event) (h : NodupKeys s) : NodupKeys (step s e) := by
  cases e with
  | connection sid address =>
    simp only [step]
    split
    · exact h
    · exact h
  | join sid token =>
    simp only [step]
    split
    · exact nodupKeys_joinStart s sid token h
    · exact h
  | lookupDone sid id ok =>
    simp only [step]
    split
    · exact nodupKeys_joinAdmit _ sid _ h
    · exact h
  | replayDone sid ok =>
    simp only [step]
    split
    · exact nodupKeys_joinReplay _ sid _ h
    · exact h
  | sendMessage sid messageData now storeOk =>
    simp only [step]
    split
    · unfold NodupKeys
      rw [sendMessage_connectedUsers]
      exact h
    · exact h
  | sendMessageStart sid messageData now =>
    simp only [step]
    split
    · unfold NodupKeys
      rw [(sendMessageStart_frame s sid messageData now).1]
      exact h
    · exact h
  | saveDone message storeOk =>
    simp only [step]
    split
    · unfold NodupKeys
      rw [(sendMessageSaved_frame _ message storeOk).1]
      exact h
    · exact h
  | disconnect sid => exact nodupKeys_socketDisconnect s sid h
  | banUser auth body now saveOk =>
    simp only [step]
    unfold NodupKeys
    rw [banUser_connectedUsers]
    exact h
  | login clientIp body now saveOk validPassword =>
    simp only [step]
    unfold NodupKeys
    rw [login_connectedUsers]
    exact h

theorem nodupKeys_run (events : List Event) (s : Server) (h : NodupKeys s) :
    NodupKeys (run s events) := by
  induction events generalizing s with
  | nil => exact h
  | cons e rest ih => exact ih (step s e) (nodupKeys_step s e h)

theorem nodupKeys_of_reachable {s : Server} (h : Reachable s) : NodupKeys s := by
  obtain ⟨users, ipBans, messages, events, rfl⟩ := h
  exact nodupKeys_run events _ (by simp [NodupKeys, init, mapKeys])

/-! ## Lemmas: closing a connection -/

theorem getSocket_updateSocket (s : Server) (sid sid' : SocketId) (f : Socket → Socket)
    (hf : ∀ k, (f k).id = k.id) :
    getSocket (updateSocket s sid f) sid' =
      (getSocket s sid').map (fun k => if k.id = sid then f k else k) := by
  unfold getSocket updateSocket
  simp only [List.find?_map]
  congr 1
  congr 1
  funext k
  by_cases hk : k.id = sid
  · simp [Function.comp, hk, hf]
  · simp [Function.comp, hk]

theorem isOpen_of_sockets_eq {s s' : Server} (h : s'.sockets = s.sockets) (sid : SocketId) :
    isOpen s' sid = isOpen s sid := by
  simp [isOpen, getSocket, h]

theorem socketDisconnect_open (s : Server) (sid : SocketId) (sock : Socket) (x : UserId)
    (hn : NodupKeys s) (hg : getSocket s sid = some sock) (hc : sock.connected = true)
    (hu : sock.userId = some x) :
    x ∉ mapKeys (socketDisconnect s sid).connectedUsers ∧
    isOpen (socketDisconnect s sid) sid = false := by
  have hid : sock.id = sid := getSocket_id hg
  have hg' : getSocket (updateSocket s sid (fun k => { k with connected := false })) sid
      = some { sock with connected := false } := by
    have hup := getSocket_updateSocket s sid sid (fun k => { k with connected := false })
      (fun _ => rfl)
    rw [hup, hg]
    simp [hid]
  unfold socketDisconnect
  simp only [hg, hc, if_true]
  unfold disconnectHandler
  simp only [hg', hu]
  constructor
  · exact not_mem_mapKeys_mapDelete _ x hn
  · have : isOpen (updateSocket s sid (fun k => { k with connected := false })) sid = false := by
      simp [isOpen, hg']
    exact Eq.trans (isOpen_of_sockets_eq rfl sid) this

/-! ## C1: what a ban does to a live session -/

/-- C1, counterexample: socket 10 is open, joined as account 1 (`alice`) and in
`connectedUsers`; the administrator's ban-user request for account 1 succeeds
(status 200); afterwards socket 10 is still open, the roster still lists
`alice`, and the only thing the request emitted is a `userBanned` broadcast. -/
theorem banUser_leaves_session_in_place :
    isOpen aliceOnline 10 = true ∧
    (getSocket aliceOnline 10).map (fun k => k.userId) = some (some 1) ∧
    mapGet aliceOnline.connectedUsers 1 = some ⟨"alice", false, 10⟩ ∧
    (banUser aliceOnline (some (.signed 9)) ⟨1, "spam", 5⟩ 1000 true).2.status = 200 ∧
    isOpen (banUser aliceOnline (some (.signed 9)) ⟨1, "spam", 5⟩ 1000 true).1 10 = true ∧
    mapValues (banUser aliceOnline (some (.signed 9)) ⟨1, "spam", 5⟩ 1000 true).1.connectedUsers
      = [⟨"alice", false, 10⟩] ∧
    (banUser aliceOnline (some (.signed 9)) ⟨1, "spam", 5⟩ 1000 true).1.emitted
      = aliceOnline.emitted ++ [⟨[10], .userBanned 1 "spam"⟩] := by
  decide

/-- C1, as amended: a successful ban-user request (answer 200) records the ban
on the user document and broadcasts one `userBanned` event, carrying the
account id and the reason, to every open connection.  The server closes no
connection and does not touch `connectedUsers`: every open connection stays
open and receives the broadcast, and the roster is the one from before.  The
client that receives `userBanned` logs out, and so disconnects, exactly when
the id is its own; in a reachable state, the banned account leaves the roster
once its connection disconnects. -/
theorem banUser_success (s : Server) (auth : Option Token) (body : BanRequest) (now : Nat)
    (saveOk : Bool) (h : (banUser s auth body now saveOk).2.status = 200) :
    (∃ user, findById s.users body.userId = some user ∧
      (banUser s auth body now saveOk).1.users = saveUser s.users
        { user with isBanned := true, banReason := body.reason,
                    banExpires := some (now + body.duration * 60 * 1000) }) ∧
    (banUser s auth body now saveOk).1.emitted
      = s.emitted ++ [⟨connectedIds s, .userBanned body.userId body.reason⟩] ∧
    (banUser s auth body now saveOk).1.sockets = s.sockets ∧
    (banUser s auth body now saveOk).1.connectedUsers = s.connectedUsers ∧
    (∀ sid, isOpen s sid = true →
      sid ∈ connectedIds s ∧ isOpen (banUser s auth body now saveOk).1 sid = true) ∧
    (∀ currentUserId,
      clientLogsOutOnUserBanned currentUserId body.userId = true ↔ currentUserId = body.userId) ∧
    (Reachable s → ∀ sid sock, getSocket s sid = some sock → sock.connected = true →
      sock.userId = some body.userId →
      body.userId ∉ mapKeys
        (step (banUser s auth body now saveOk).1 (.disconnect sid)).connectedUsers) := by
  have key : (∃ user, findById s.users body.userId = some user ∧
      (banUser s auth body now saveOk).1.users = saveUser s.users
        { user with isBanned := true, banReason := body.reason,
                    banExpires := some (now + body.duration * 60 * 1000) }) ∧
      (banUser s auth body now saveOk).1.emitted
        = s.emitted ++ [⟨connectedIds s, .userBanned body.userId body.reason⟩] ∧
      (banUser s auth body now saveOk).1.sockets = s.sockets := by
    revert h
    unfold banUser
    split
    · rename_i status hauth
      intro h
      simp only at h
      exfalso
      revert hauth
      unfold authenticateToken
      split
      · intro hauth; simp only [Except.error.injEq] at hauth; omega
      · split
        · intro hauth; simp only [Except.error.injEq] at hauth; omega
        · split
          · intro hauth; simp only [Except.error.injEq] at hauth; omega
          · split
            · intro hauth; simp only [Except.error.injEq] at hauth; omega
            · intro hauth; simp at hauth
    · split
      · intro h; simp at h
      · split
        · intro h; simp at h
        · rename_i user hfind
          split
          · intro _
            exact ⟨⟨user, hfind, rfl⟩, rfl, rfl⟩
          · intro h; simp at h
  obtain ⟨husers, hemit, hsock⟩ := key
  refine ⟨husers, hemit, hsock, banUser_connectedUsers s auth body now saveOk, ?_, ?_, ?_⟩
  · intro sid hopen
    exact ⟨mem_connectedIds_of_isOpen hopen, by rw [isOpen_of_sockets_eq hsock]; exact hopen⟩
  · intro currentUserId
    simp only [clientLogsOutOnUserBanned, beq_iff_eq]
    exact eq_comm
  · intro hr sid sock hg hc hu
    have hn : NodupKeys (banUser s auth body now saveOk).1 := by
      unfold NodupKeys
      rw [banUser_connectedUsers]
      exact nodupKeys_of_reachable hr
    have hg' : getSocket (banUser s auth body now saveOk).1 sid = some sock := by
      unfold getSocket at hg ⊢
      rw [hsock]; exact hg
    exact (socketDisconnect_open _ sid sock body.userId hn hg' hc hu).1

/-- C1, witness of `banUser_success`: the administrator bans `alice` while she
is online on socket 10. -/
theorem banUser_success_witness :
    isOpen (banUser aliceOnline (some (.signed 9)) ⟨1, "spam", 5⟩ 1000 true).1 10 = true ∧
    (banUser aliceOnline (some (.signed 9)) ⟨1, "spam", 5⟩ 1000 true).1.connectedUsers
      = aliceOnline.connectedUsers :=
  have h := banUser_success aliceOnline (some (.signed 9)) ⟨1, "spam", 5⟩ 1000 true (by decide)
  ⟨(h.2.2.2.2.1 10 (by decide)).2, h.2.2.2.1⟩

/-! ## Lemmas: admission -/

theorem findById_id {users : List User} {id : UserId} {user : User}
    (h : findById users id = some user) : user.id = id := by
  have := List.find?_some h
  simpa using this

theorem connectedIds_updateSocket (s : Server) (sid : SocketId) (f : Socket → Socket)
    (hid : ∀ k, (f k).id = k.id) (hc : ∀ k, (f k).connected = k.connected) :
    connectedIds (updateSocket s sid f) = connectedIds s := by
  unfold connectedIds updateSocket
  simp only
  induction s.sockets with
  | nil => rfl
  | cons k rest ih =>
    by_cases hk : k.id = sid
    · by_cases hk' : k.connected = true
      · simp [List.filter_cons, hk, hk', hc, hid, ih]
      · simp [List.filter_cons, hk, hk', hc, ih]
    · by_cases hk' : k.connected = true
      · simp [List.filter_cons, hk, hk', ih]
      · simp [List.filter_cons, hk, hk', ih]

theorem joinAdmit_eq (s : Server) (sid : SocketId) (user : User)
    (hb : user.isBanned = false) :
    joinAdmit s sid (some (some user)) =
      { ioEmit { updateSocket s sid (fun k =>
            { k with userId := some user.id, username := user.username,
                     isAdmin := user.isAdmin }) with
          connectedUsers := mapSet s.connectedUsers user.id ⟨user.username, user.isAdmin, sid⟩ }
          (.userOnline (mapValues
            (mapSet s.connectedUsers user.id ⟨user.username, user.isAdmin, sid⟩))) with
        pendingReplays := s.pendingReplays ++ [sid] } := by
  unfold joinAdmit
  simp only [hb, Bool.false_eq_true, if_false]
  rfl

theorem joinAdmit_admitted (s : Server) (sid : SocketId) (user : User)
    (hb : user.isBanned = false) :
    (joinAdmit s sid (some (some user))).connectedUsers
      = mapSet s.connectedUsers user.id ⟨user.username, user.isAdmin, sid⟩ ∧
    (joinAdmit s sid (some (some user))).sockets
      = (updateSocket s sid (fun k =>
          { k with userId := some user.id, username := user.username,
                   isAdmin := user.isAdmin })).sockets ∧
    (joinAdmit s sid (some (some user))).emitted
      = s.emitted ++ [⟨connectedIds s, .userOnline (mapValues
          (mapSet s.connectedUsers user.id ⟨user.username, user.isAdmin, sid⟩))⟩] ∧
    (joinAdmit s sid (some (some user))).pendingReplays = s.pendingReplays ++ [sid] ∧
    (joinAdmit s sid (some (some user))).messages = s.messages ∧
    (joinAdmit s sid (some (some user))).users = s.users := by
  have hids := connectedIds_updateSocket s sid (fun k =>
    { k with userId := some user.id, username := user.username, isAdmin := user.isAdmin })
    (fun _ => rfl) (fun _ => rfl)
  rw [joinAdmit_eq s sid user hb]
  refine ⟨rfl, rfl, ?_, rfl, rfl, rfl⟩
  have : connectedIds { updateSocket s sid (fun k =>
      { k with userId := some user.id, username := user.username, isAdmin := user.isAdmin })
      with connectedUsers := mapSet s.connectedUsers user.id ⟨user.username, user.isAdmin, sid⟩ }
      = connectedIds s := hids
  simp only [ioEmit_emitted, this]
  rfl

/-! ## C2: a second join for the same account -/

/-- C2, counterexample: socket 10 is joined as `alice`; socket 20 then joins as
`alice` as well.  Socket 10 is not closed, the join emitted nothing but the
roster broadcast and the replay to socket 20, and socket 10 is among the
recipients of that roster broadcast and of the next `newMessage`. -/
theorem second_join_keeps_first_connection :
    (getSocket aliceOnline 10).map (fun k => (k.connected, k.userId)) = some (true, some 1) ∧
    isOpen aliceTwice 10 = true ∧
    aliceTwice.emitted = aliceOnline.emitted ++
      [⟨[10, 20], .userOnline [⟨"alice", false, 20⟩]⟩, ⟨[20], .recentMessages []⟩] ∧
    (step aliceTwice (.sendMessage 20 ⟨some "hi"⟩ 5 true)).emitted = aliceTwice.emitted ++
      [⟨[10, 20], .newMessage ⟨"alice", "hi", false, 5⟩⟩] := by
  decide

/-- C2, as amended: in a reachable state where connection `a` is joined as
account `x`, a successful join of another connection `b` as `x` leaves exactly
one entry for `x` in `connectedUsers`, and its `socketId` is `b`.  Connection
`a` is left as it was (not closed, still joined as `x`, no notice sent to it):
the only emission is the `userOnline` broadcast of the new roster, and `a`,
still open, is one of its recipients. -/
theorem second_join_overwrites_entry (s : Server) (a b : SocketId) (x : UserId)
    (sa : Socket) (u : User) (hr : Reachable s) (hab : a ≠ b)
    (ha : getSocket s a = some sa) (hac : sa.connected = true) (hau : sa.userId = some x)
    (hu : findById s.users x = some u) (hnb : u.isBanned = false) :
    (joinAdmit s b (some (findById s.users x))).connectedUsers.filter (fun e => e.1 == x)
      = [(x, ⟨u.username, u.isAdmin, b⟩)] ∧
    getSocket (joinAdmit s b (some (findById s.users x))) a = some sa ∧
    (getSocket (joinAdmit s b (some (findById s.users x))) a).bind (fun k => k.userId)
      = some x ∧
    isOpen (joinAdmit s b (some (findById s.users x))) a = true ∧
    (joinAdmit s b (some (findById s.users x))).emitted = s.emitted ++
      [⟨connectedIds s, .userOnline
        (mapValues (joinAdmit s b (some (findById s.users x))).connectedUsers)⟩] ∧
    a ∈ connectedIds s := by
  have hid : u.id = x := findById_id hu
  have hsa : sa.id = a := getSocket_id ha
  rw [hu]
  obtain ⟨hcu, hso, hem, -, -, -⟩ := joinAdmit_admitted s b u hnb
  have hget : getSocket (joinAdmit s b (some (some u))) a = some sa := by
    have h1 : getSocket (joinAdmit s b (some (some u))) a
        = getSocket (updateSocket s b (fun k =>
            { k with userId := some u.id, username := u.username, isAdmin := u.isAdmin })) a := by
      unfold getSocket
      rw [hso]
    have h2 := getSocket_updateSocket s b a (fun k =>
      { k with userId := some u.id, username := u.username, isAdmin := u.isAdmin })
      (fun _ => rfl)
    rw [h1, h2, ha]
    have : ¬ sa.id = b := by rw [hsa]; exact hab
    simp [this]
  have hopen : isOpen s a = true := by simp [isOpen, ha, hac]
  refine ⟨?_, hget, by rw [hget]; exact hau, ?_, ?_, mem_connectedIds_of_isOpen hopen⟩
  · rw [hcu, hid]
    exact filter_mapSet _ _ _ (nodupKeys_of_reachable hr)
  · simp [isOpen, hget, hac]
  · rw [hem, hcu]

/-- C2, witness of `second_join_overwrites_entry`: socket 10 is joined as
`alice` and the lookup for socket 20's join as `alice` answers. -/
theorem second_join_overwrites_entry_witness :
    (joinAdmit aliceSecondJoinPending 20
        (some (findById aliceSecondJoinPending.users 1))).connectedUsers.filter
      (fun e => e.1 == 1) = [(1, ⟨"alice", false, 20⟩)] ∧
    isOpen (joinAdmit aliceSecondJoinPending 20
        (some (findById aliceSecondJoinPending.users 1))) 10 = true :=
  have h := second_join_overwrites_entry aliceSecondJoinPending 10 20 1
    ⟨10, "10.0.0.1", true, some 1, "alice", false⟩ alice
    ⟨db, [], [], _, rfl⟩ (by decide) (by decide) rfl rfl (by decide) rfl
  ⟨h.1, h.2.2.2.1⟩

/-! ## C3: the roster against the open connections -/

/-- C3, the code at the failing input: sockets 10 and 20 both join as `alice`
(account 1), then socket 10 disconnects.  The roster broadcast after this last
event is empty and `connectedUsers` has no entry for account 1, although
socket 20 is open and has successfully joined as account 1. -/
theorem roster_drops_account_still_connected :
    aliceFirstLeaves.emitted.getLast? = some ⟨[20], .userOnline []⟩ ∧
    mapValues aliceFirstLeaves.connectedUsers = [] ∧
    mapGet aliceFirstLeaves.connectedUsers 1 = none ∧
    getSocket aliceFirstLeaves 20 = some ⟨20, "10.0.0.2", true, some 1, "alice", false⟩ := by
  decide

/-! ## C4: entries of closed connections -/

/-- C4, the code at the failing inputs.  First: socket 10 joins as `alice`,
joins again with a token of `bob`, and disconnects; the entry of `alice`, with
`socketId` 10, survives the disconnect.  Second: socket 10 emits `join` and
disconnects while the user lookup is pending; when the lookup answers the
handler inserts an entry with `socketId` 10 for the closed connection. -/
theorem entry_outlives_its_connection :
    (isOpen rejoinThenLeave 10 = false ∧
      rejoinThenLeave.connectedUsers = [(1, ⟨"alice", false, 10⟩)]) ∧
    (isOpen leaveDuringLookup 10 = false ∧
      leaveDuringLookup.connectedUsers = [(1, ⟨"alice", false, 10⟩)]) := by
  decide

/-! ## C5: a refused join -/

theorem socketDisconnect_unjoined (s : Server) (sid : SocketId) (sock : Socket)
    (hg : getSocket s sid = some sock) (hu : sock.userId = none) :
    RefusedUntouched s (socketDisconnect s sid) sid := by
  have hid : sock.id = sid := getSocket_id hg
  unfold socketDisconnect
  simp only [hg]
  by_cases hc : sock.connected = true
  · have hup := getSocket_updateSocket s sid sid (fun k => { k with connected := false })
      (fun _ => rfl)
    have hg' : getSocket (updateSocket s sid (fun k => { k with connected := false })) sid
        = some { sock with connected := false } := by
      rw [hup, hg]
      simp [hid]
    have hd : disconnectHandler (updateSocket s sid (fun k => { k with connected := false })) sid
        = updateSocket s sid (fun k => { k with connected := false }) := by
      unfold disconnectHandler
      simp only [hg', hu]
    simp only [hc, if_true, hd]
    refine ⟨?_, ?_, rfl, rfl⟩
    · simp [isOpen, hg']
    · simp [hg', hu]
  · simp only [hc]
    refine ⟨?_, ?_, rfl, rfl⟩
    · simp [isOpen, hg, hc]
    · simp [hg, hu]

/-- C5, counterexample: socket 10 is joined as `alice` and socket 20 as `bob`;
socket 10 emits `join` again with a token that fails verification.  The
entry of `alice` is removed from `connectedUsers`, a `userOnline` broadcast is
emitted, and `socket.userId` of socket 10 is set, not unset. -/
theorem failed_join_of_joined_socket_changes_registry :
    jwtVerify .invalid = none ∧
    aliceAndBob.connectedUsers = [(1, ⟨"alice", false, 10⟩), (2, ⟨"bob", false, 20⟩)] ∧
    (step aliceAndBob (.join 10 .invalid)).connectedUsers = [(2, ⟨"bob", false, 20⟩)] ∧
    (step aliceAndBob (.join 10 .invalid)).emitted
      = aliceAndBob.emitted ++ [⟨[20], .userOnline [⟨"bob", false, 20⟩]⟩] ∧
    (getSocket (step aliceAndBob (.join 10 .invalid)) 10).map (fun k => k.userId)
      = some (some 1) := by
  decide

/-- C5, as amended: on a connection on which no join has succeeded
(`socket.userId` unset), a join whose token fails verification, whose decoded
id matches no user, or whose user has `isBanned` set, disconnects the
connection and leaves everything else as it was: `connectedUsers` unchanged,
`socket.userId` still unset, no `userOnline` broadcast and no `recentMessages`
replay. -/
theorem failed_join_untouched (s : Server) (sid : SocketId) (sock : Socket)
    (hg : getSocket s sid = some sock) (hu : sock.userId = none) :
    (∀ token, jwtVerify token = none → RefusedUntouched s (joinStart s sid token) sid) ∧
    RefusedUntouched s (joinAdmit s sid (some none)) sid ∧
    (∀ user, user.isBanned = true →
      RefusedUntouched s (joinAdmit s sid (some (some user))) sid) := by
  have h := socketDisconnect_unjoined s sid sock hg hu
  refine ⟨?_, ?_, ?_⟩
  · intro token ht
    unfold joinStart
    simp only [ht]
    exact h
  · exact h
  · intro user hb
    unfold joinAdmit
    simp only [hb, if_true]
    exact h

/-- C5, witness of `failed_join_untouched`: socket 30 has just connected and
emits `join` with an invalid token. -/
theorem failed_join_untouched_witness :
    RefusedUntouched (run (init db [] []) [.connection 30 "10.0.0.3"])
      (joinStart (run (init db [] []) [.connection 30 "10.0.0.3"]) 30 .invalid) 30 :=
  (failed_join_untouched (run (init db [] []) [.connection 30 "10.0.0.3"]) 30
    ⟨30, "10.0.0.3", true, none, "", false⟩ rfl rfl).1 .invalid rfl

/-! ## C6: address bans and `join` -/

theorem getSocket_joinAdmit (s : Server) (sid : SocketId) (sock : Socket) (user : User)
    (hg : getSocket s sid = some sock) (hb : user.isBanned = false) :
    getSocket (joinAdmit s sid (some (some user))) sid
      = some { sock with userId := some user.id, username := user.username,
                         isAdmin := user.isAdmin } := by
  have hid : sock.id = sid := getSocket_id hg
  have h1 : getSocket (joinAdmit s sid (some (some user))) sid
      = getSocket (updateSocket s sid (fun k =>
          { k with userId := some user.id, username := user.username,
                   isAdmin := user.isAdmin })) sid := by
    unfold getSocket
    rw [(joinAdmit_admitted s sid user hb).2.1]
  have h2 := getSocket_updateSocket s sid sid (fun k =>
    { k with userId := some user.id, username := user.username, isAdmin := user.isAdmin })
    (fun _ => rfl)
  rw [h1, h2, hg]
  simp [hid]

/-- C6, counterexample: the address `10.0.0.1` has an IP-ban record that runs
until time 5000, and at time 1000 `checkIpBan` refuses that address; a socket
connecting from `10.0.0.1` and emitting `join` with a valid token of the
unbanned account `alice` is nevertheless added to `connectedUsers` and stays
open. -/
theorem join_from_banned_address_is_admitted :
    checkIpBan [addressBan] "10.0.0.1" 1000 = some ⟨403, "IP banido"⟩ ∧
    (getSocket (run (init db [addressBan] []) aliceJoins) 10).map (fun k => k.address)
      = some "10.0.0.1" ∧
    (run (init db [addressBan] []) aliceJoins).connectedUsers = [(1, ⟨"alice", false, 10⟩)] ∧
    isOpen (run (init db [addressBan] []) aliceJoins) 10 = true := by
  decide

/-- C6, as amended: the `join` handler does not look at IP-ban records.  When
the origin address of a connection has an unexpired record, `checkIpBan` (the
guard of the register and login routes) answers 403 `IP banido` for that
address, but a join on that connection with a valid credential of an unbanned
account is admitted: the socket gets the account's id and `connectedUsers`
gets the entry of this socket. -/
theorem join_admits_despite_address_ban (s : Server) (sid : SocketId) (sock : Socket)
    (now : Nat) (ban : IpBan) (id : UserId) (user : User)
    (hg : getSocket s sid = some sock)
    (hban : findIpBan s.ipBans sock.address now = some ban)
    (hu : findById s.users id = some user) (hnb : user.isBanned = false) :
    (ban.ip = sock.address ∧ now < ban.expiresAt) ∧
    checkIpBan s.ipBans sock.address now = some ⟨403, "IP banido"⟩ ∧
    jwtVerify (.signed id) = some id ∧
    mapGet (joinAdmit s sid (some (findById s.users id))).connectedUsers id
      = some ⟨user.username, user.isAdmin, sid⟩ ∧
    (getSocket (joinAdmit s sid (some (findById s.users id))) sid).bind (fun k => k.userId)
      = some id ∧
    isOpen (joinAdmit s sid (some (findById s.users id))) sid = isOpen s sid := by
  have hid : user.id = id := findById_id hu
  have hb : ban.ip = sock.address ∧ now < ban.expiresAt := by
    have := List.find?_some hban
    simpa using this
  rw [hu]
  have hget := getSocket_joinAdmit s sid sock user hg hnb
  refine ⟨hb, ?_, rfl, ?_, ?_, ?_⟩
  · unfold checkIpBan
    rw [hban]
  · rw [(joinAdmit_admitted s sid user hnb).1, hid]
    exact mapGet_mapSet _ _ _
  · rw [hget]
    simp [hid]
  · simp [isOpen, hget, hg]

/-- C6, witness of `join_admits_despite_address_ban`: the lookup for the join
of socket 10, connected from the banned address `10.0.0.1`, answers. -/
theorem join_admits_despite_address_ban_witness :
    mapGet (joinAdmit
        (run (init db [addressBan] []) [.connection 10 "10.0.0.1", .join 10 (.signed 1)]) 10
        (some (findById
          (run (init db [addressBan] []) [.connection 10 "10.0.0.1", .join 10 (.signed 1)]).users
          1))).connectedUsers 1
      = some ⟨"alice", false, 10⟩ :=
  (join_admits_despite_address_ban
    (run (init db [addressBan] []) [.connection 10 "10.0.0.1", .join 10 (.signed 1)]) 10
    ⟨10, "10.0.0.1", true, none, "", false⟩ 1000 addressBan 1 alice
    (by decide) (by decide) (by decide) rfl).2.2.2.1

/-! ## C7: expired account bans and `join` -/

/-- C7, counterexample: the ban of `carol` expired at time 1000 and her
`isBanned` flag has not been cleared; her join with a valid token is refused
whatever the current time: the connection is closed and `connectedUsers` stays
empty. -/
theorem join_with_expired_ban_is_refused :
    findById db 3 = some carol ∧
    carol.banExpires = some 1000 ∧ carol.isBanned = true ∧
    isOpen (run (init db [] []) carolJoins) 30 = false ∧
    (run (init db [] []) carolJoins).connectedUsers = [] ∧
    (run (init db [] []) carolJoins).emitted = [] := by
  decide

/-- C7, as amended: the `join` handler decides on the stored `isBanned` flag
alone; `banExpires` and the current time play no part.  With a valid
credential, an account whose flag is clear is admitted (whatever its
`banExpires`), and an account whose flag is still set is refused, also when
its `banExpires` lies in the past: on a connection that had not joined, the
connection is closed and `connectedUsers` is unchanged. -/
theorem join_decides_on_flag (s : Server) (sid : SocketId) (sock : Socket) (id : UserId)
    (user : User) (hg : getSocket s sid = some sock) (hsu : sock.userId = none)
    (hu : findById s.users id = some user) :
    (user.isBanned = false →
      mapGet (joinAdmit s sid (some (findById s.users id))).connectedUsers id
        = some ⟨user.username, user.isAdmin, sid⟩ ∧
      isOpen (joinAdmit s sid (some (findById s.users id))) sid = isOpen s sid) ∧
    (user.isBanned = true →
      RefusedUntouched s (joinAdmit s sid (some (findById s.users id))) sid) := by
  have hid : user.id = id := findById_id hu
  rw [hu]
  constructor
  · intro hnb
    constructor
    · rw [(joinAdmit_admitted s sid user hnb).1, hid]
      exact mapGet_mapSet _ _ _
    · simp [isOpen, getSocket_joinAdmit s sid sock user hg hnb, hg]
  · intro hb
    unfold joinAdmit
    simp only [hb, if_true]
    exact socketDisconnect_unjoined s sid sock hg hsu

/-- C7, witness of `join_decides_on_flag`: the lookup for the join of socket
30 with the token of `carol` answers; her flag is set and her ban expired. -/
theorem join_decides_on_flag_witness :
    RefusedUntouched
      (run (init db [] []) [.connection 30 "10.0.0.3", .join 30 (.signed 3)])
      (joinAdmit (run (init db [] []) [.connection 30 "10.0.0.3", .join 30 (.signed 3)]) 30
        (some (findById
          (run (init db [] []) [.connection 30 "10.0.0.3", .join 30 (.signed 3)]).users 3)))
      30 :=
  (join_decides_on_flag
    (run (init db [] []) [.connection 30 "10.0.0.3", .join 30 (.signed 3)]) 30
    ⟨30, "10.0.0.3", true, none, "", false⟩ 3 carol (by decide) rfl (by decide)).2 rfl

/-! ## Lemmas: `sendMessage` -/

theorem sendMessage_saved (s : Server) (sid : SocketId) (sock : Socket) (uid : UserId)
    (messageData : MessageData) (now : Nat) (storeOk : Bool)
    (hg : getSocket s sid = some sock) (hu : sock.userId = some uid)
    (hs : messageSave ⟨sock.username, messageData.message.getD "", sock.isAdmin, now⟩ storeOk
      = true) :
    sendMessage s sid messageData now storeOk =
      ioEmit { s with messages := s.messages ++
          [⟨sock.username, messageData.message.getD "", sock.isAdmin, now⟩] }
        (.newMessage ⟨sock.username, messageData.message.getD "", sock.isAdmin, now⟩) := by
  unfold sendMessage sendMessageSaved
  simp only [hg, hu, hs, if_true]

theorem sendMessage_not_saved (s : Server) (sid : SocketId) (sock : Socket) (uid : UserId)
    (messageData : MessageData) (now : Nat) (storeOk : Bool)
    (hg : getSocket s sid = some sock) (hu : sock.userId = some uid)
    (hs : messageSave ⟨sock.username, messageData.message.getD "", sock.isAdmin, now⟩ storeOk
      = false) :
    sendMessage s sid messageData now storeOk =
      { s with errorLog := s.errorLog ++ ["Erro ao salvar mensagem:"] } := by
  unfold sendMessage sendMessageSaved
  simp only [hg, hu, hs, Bool.false_eq_true, if_false]

theorem jsTrim_of_whitespaceOnly (text : String) (h : whitespaceOnly text = true) :
    jsTrim text = "" := by
  unfold whitespaceOnly at h
  have h1 : text.data.dropWhile jsIsWhiteSpace = [] := by
    rw [List.dropWhile_eq_nil_iff]
    intro c hc
    exact List.all_eq_true.mp h c hc
  unfold jsTrim
  rw [h1]
  rfl

/-! ## C8: empty and white-space submits -/

/-- C8, counterexample: socket 10 is joined as `alice` and emits `sendMessage`
with a body of three spaces; the store accepts it.  The handler persists the
message and broadcasts it as `newMessage`. -/
theorem whitespace_body_is_persisted_and_broadcast :
    whitespaceOnly "   " = true ∧
    (sendMessage aliceOnline 10 ⟨some "   "⟩ 5 true).messages
      = aliceOnline.messages ++ [⟨"alice", "   ", false, 5⟩] ∧
    (sendMessage aliceOnline 10 ⟨some "   "⟩ 5 true).emitted
      = aliceOnline.emitted ++ [⟨[10], .newMessage ⟨"alice", "   ", false, 5⟩⟩] := by
  decide

/-- C8, as amended: on a joined connection, a `sendMessage` whose body is the
empty string persists no Message and emits no `newMessage`: `save` rejects it
and the handler only logs the error.  A body that is not empty and consists
of white space only is handled like any other body: when the store accepts the
message it is persisted and broadcast.  White-space bodies are kept away by the
client, whose `sendMessage` trims the input and emits nothing for an input of
white space only. -/
theorem empty_submit_only (s : Server) (sid : SocketId) (sock : Socket) (uid : UserId)
    (now : Nat) (hg : getSocket s sid = some sock) (hu : sock.userId = some uid) :
    (∀ storeOk,
      (sendMessage s sid ⟨some ""⟩ now storeOk).messages = s.messages ∧
      (sendMessage s sid ⟨some ""⟩ now storeOk).emitted = s.emitted ∧
      (sendMessage s sid ⟨some ""⟩ now storeOk).errorLog
        = s.errorLog ++ ["Erro ao salvar mensagem:"]) ∧
    (∀ body, whitespaceOnly body = true → body ≠ "" →
      messageSave ⟨sock.username, body, sock.isAdmin, now⟩ true = true →
      (sendMessage s sid ⟨some body⟩ now true).messages
        = s.messages ++ [⟨sock.username, body, sock.isAdmin, now⟩] ∧
      (sendMessage s sid ⟨some body⟩ now true).emitted
        = s.emitted ++ [⟨connectedIds s, .newMessage ⟨sock.username, body, sock.isAdmin, now⟩⟩]) ∧
    (∀ input hasSocket, whitespaceOnly input = true →
      clientSendMessage input hasSocket = none) := by
  refine ⟨?_, ?_, ?_⟩
  · intro storeOk
    have hs : messageSave ⟨sock.username, (MessageData.mk (some "")).message.getD "",
        sock.isAdmin, now⟩ storeOk = false := by
      simp [messageSave, validateMessage]
    rw [sendMessage_not_saved s sid sock uid ⟨some ""⟩ now storeOk hg hu hs]
    exact ⟨rfl, rfl, rfl⟩
  · intro body _ _ hs
    rw [sendMessage_saved s sid sock uid ⟨some body⟩ now true hg hu hs]
    exact ⟨rfl, rfl⟩
  · intro input hasSocket hw
    unfold clientSendMessage
    simp [jsTrim_of_whitespaceOnly input hw]

/-- C8, witness of `empty_submit_only`: `alice`, joined on socket 10, submits
the empty string. -/
theorem empty_submit_only_witness :
    (sendMessage aliceOnline 10 ⟨some ""⟩ 5 true).messages = aliceOnline.messages ∧
    (sendMessage aliceOnline 10 ⟨some ""⟩ 5 true).emitted = aliceOnline.emitted :=
  have h := (empty_submit_only aliceOnline 10 ⟨10, "10.0.0.1", true, some 1, "alice", false⟩ 1 5
    (by decide) rfl).1 true
  ⟨h.1, h.2.1⟩

/-! ## C9: an accepted submit -/

theorem getSocket_sendMessage (s : Server) (sid sid' : SocketId) (messageData : MessageData)
    (now : Nat) (storeOk : Bool) :
    getSocket (sendMessage s sid messageData now storeOk) sid' = getSocket s sid' := by
  unfold sendMessage
  split
  · rfl
  · split
    · rfl
    · unfold sendMessageSaved
      split <;> rfl

theorem connectedIds_sendMessage (s : Server) (sid : SocketId) (messageData : MessageData)
    (now : Nat) (storeOk : Bool) :
    connectedIds (sendMessage s sid messageData now storeOk) = connectedIds s := by
  unfold sendMessage
  split
  · rfl
  · split
    · rfl
    · unfold sendMessageSaved
      split <;> rfl

theorem step_sendMessageStart (s : Server) (sid : SocketId) (sock : Socket) (uid : UserId)
    (messageData : MessageData) (now : Nat)
    (hg : getSocket s sid = some sock) (hc : sock.connected = true)
    (hu : sock.userId = some uid) :
    step s (.sendMessageStart sid messageData now) =
      { s with pendingSaves := s.pendingSaves ++
          [⟨sock.username, messageData.message.getD "", sock.isAdmin, now⟩] } := by
  have hopen : isOpen s sid = true := by simp [isOpen, hg, hc]
  simp only [step, hopen, if_true]
  unfold sendMessageStart
  simp only [hg, hu]

theorem step_saveDone_accepted (t : Server) (message : Message) (storeOk : Bool)
    (hmem : message ∈ t.pendingSaves) (hs : messageSave message storeOk = true) :
    (step t (.saveDone message storeOk)).messages = t.messages ++ [message] ∧
    (step t (.saveDone message storeOk)).emitted
      = t.emitted ++ [⟨connectedIds t, .newMessage message⟩] ∧
    (step t (.saveDone message storeOk)).pendingSaves = t.pendingSaves.erase message ∧
    (step t (.saveDone message storeOk)).sockets = t.sockets := by
  simp only [step, hmem, if_true]
  unfold sendMessageSaved
  simp only [hs, if_true]
  exact ⟨rfl, rfl, rfl, rfl⟩

theorem handled_submit (s : Server) (sid : SocketId) (sock : Socket) (uid : UserId)
    (body : String) (now : Nat) (storeOk : Bool)
    (hg : getSocket s sid = some sock) (hc : sock.connected = true)
    (hu : sock.userId = some uid)
    (hs : messageSave ⟨sock.username, body, sock.isAdmin, now⟩ storeOk = true) :
    (run s [.sendMessageStart sid ⟨some body⟩ now,
        .saveDone ⟨sock.username, body, sock.isAdmin, now⟩ storeOk]).messages
      = s.messages ++ [⟨sock.username, body, sock.isAdmin, now⟩] ∧
    (run s [.sendMessageStart sid ⟨some body⟩ now,
        .saveDone ⟨sock.username, body, sock.isAdmin, now⟩ storeOk]).emitted
      = s.emitted ++ [⟨connectedIds s, .newMessage ⟨sock.username, body, sock.isAdmin, now⟩⟩] ∧
    (run s [.sendMessageStart sid ⟨some body⟩ now,
        .saveDone ⟨sock.username, body, sock.isAdmin, now⟩ storeOk]).sockets = s.sockets := by
  have e1 := step_sendMessageStart s sid sock uid ⟨some body⟩ now hg hc hu
  have hmem : (⟨sock.username, body, sock.isAdmin, now⟩ : Message)
      ∈ (step s (.sendMessageStart sid ⟨some body⟩ now)).pendingSaves := by
    rw [e1]
    simp
  obtain ⟨hm, he, -, hk⟩ := step_saveDone_accepted
    (step s (.sendMessageStart sid ⟨some body⟩ now)) _ storeOk hmem hs
  have hrun : run s [.sendMessageStart sid ⟨some body⟩ now,
      .saveDone ⟨sock.username, body, sock.isAdmin, now⟩ storeOk]
      = step (step s (.sendMessageStart sid ⟨some body⟩ now))
          (.saveDone ⟨sock.username, body, sock.isAdmin, now⟩ storeOk) := rfl
  rw [hrun, hm, he, hk, e1]
  exact ⟨rfl, rfl, rfl⟩

theorem sendMessage_eq_segments (s : Server) (sid : SocketId) (sock : Socket) (uid : UserId)
    (messageData : MessageData) (now : Nat) (storeOk : Bool)
    (hg : getSocket s sid = some sock) (hc : sock.connected = true)
    (hu : sock.userId = some uid) :
    step (step s (.sendMessageStart sid messageData now))
        (.saveDone ⟨sock.username, messageData.message.getD "", sock.isAdmin, now⟩ storeOk)
      = { sendMessage s sid messageData now storeOk with
          pendingSaves := (s.pendingSaves ++
            [(⟨sock.username, messageData.message.getD "", sock.isAdmin, now⟩ : Message)]).erase
              ⟨sock.username, messageData.message.getD "", sock.isAdmin, now⟩ } := by
  rw [step_sendMessageStart s sid sock uid messageData now hg hc hu]
  have hmem : (⟨sock.username, messageData.message.getD "", sock.isAdmin, now⟩ : Message)
      ∈ s.pendingSaves ++ [⟨sock.username, messageData.message.getD "", sock.isAdmin, now⟩] := by
    simp
  simp only [step, hmem, if_true]
  unfold sendMessage sendMessageSaved
  simp only [hg, hu]
  split <;> rfl

theorem sendMessage_eq_segments_of_not_pending (s : Server) (sid : SocketId) (sock : Socket)
    (uid : UserId) (messageData : MessageData) (now : Nat) (storeOk : Bool)
    (hg : getSocket s sid = some sock) (hc : sock.connected = true)
    (hu : sock.userId = some uid)
    (hp : (⟨sock.username, messageData.message.getD "", sock.isAdmin, now⟩ : Message)
      ∉ s.pendingSaves) :
    step (step s (.sendMessageStart sid messageData now))
        (.saveDone ⟨sock.username, messageData.message.getD "", sock.isAdmin, now⟩ storeOk)
      = step s (.sendMessage sid messageData now storeOk) := by
  have hopen : isOpen s sid = true := by simp [isOpen, hg, hc]
  have herase : (s.pendingSaves ++
      [(⟨sock.username, messageData.message.getD "", sock.isAdmin, now⟩ : Message)]).erase
        ⟨sock.username, messageData.message.getD "", sock.isAdmin, now⟩
      = s.pendingSaves := by
    rw [List.erase_append_right _ hp]
    simp
  rw [sendMessage_eq_segments s sid sock uid messageData now storeOk hg hc hu, herase]
  simp only [step, hopen, if_true]
  unfold sendMessage sendMessageSaved
  simp only [hg, hu]
  split <;> rfl

/-- A note on two submits in flight: `alice` submits `a` and then `b` before
either `save` has answered; the save of `b` answers first.  The broadcasts
follow the order in which the saves answer. -/
theorem in_flight_submits_follow_save_order :
    (run aliceOnline [.sendMessageStart 10 ⟨some "a"⟩ 5, .sendMessageStart 10 ⟨some "b"⟩ 6,
        .saveDone ⟨"alice", "b", false, 6⟩ true, .saveDone ⟨"alice", "a", false, 5⟩ true]).emitted
      = aliceOnline.emitted ++ [⟨[10], .newMessage ⟨"alice", "b", false, 6⟩⟩,
          ⟨[10], .newMessage ⟨"alice", "a", false, 5⟩⟩] := by
  decide

/-- C9: on a joined connection, a `sendMessage` with body `body` whose message
the store accepts (`save` resolves: the validators pass, so the body is not
empty, and the insert succeeds).  On arrival the handler builds the message
from the `username` and `isAdmin` recorded on the socket, which are the values
the `join` handler copied from the user document, and from the submitted body,
and waits for the `save`; nothing is persisted or emitted yet.  When the save
answers, in whatever state the server is by then, exactly one Message is
persisted and exactly one `newMessage` broadcast is emitted, carrying that
message, to the connections open at that moment, and the handler is finished.
Two such submits handled one after the other (the second arrives once the
first has been handled to its end) are persisted and broadcast in that order. -/
theorem accepted_submit (s : Server) (sid : SocketId) (sock : Socket) (uid : UserId)
    (body : String) (now : Nat) (storeOk : Bool)
    (hg : getSocket s sid = some sock) (hc : sock.connected = true)
    (hu : sock.userId = some uid)
    (hs : messageSave ⟨sock.username, body, sock.isAdmin, now⟩ storeOk = true) :
    body ≠ "" ∧
    step s (.sendMessageStart sid ⟨some body⟩ now)
      = { s with pendingSaves := s.pendingSaves ++
            [⟨sock.username, body, sock.isAdmin, now⟩] } ∧
    (∀ (t : Server) (user : User), user.isBanned = false →
      s = joinAdmit t sid (some (some user)) → getSocket t sid ≠ none →
      sock.username = user.username ∧ sock.isAdmin = user.isAdmin) ∧
    (∀ t : Server, (⟨sock.username, body, sock.isAdmin, now⟩ : Message) ∈ t.pendingSaves →
      (step t (.saveDone ⟨sock.username, body, sock.isAdmin, now⟩ storeOk)).messages
        = t.messages ++ [⟨sock.username, body, sock.isAdmin, now⟩] ∧
      (step t (.saveDone ⟨sock.username, body, sock.isAdmin, now⟩ storeOk)).emitted
        = t.emitted ++
            [⟨connectedIds t, .newMessage ⟨sock.username, body, sock.isAdmin, now⟩⟩] ∧
      (step t (.saveDone ⟨sock.username, body, sock.isAdmin, now⟩ storeOk)).pendingSaves
        = t.pendingSaves.erase ⟨sock.username, body, sock.isAdmin, now⟩) ∧
    (∀ (sid2 : SocketId) (sock2 : Socket) (uid2 : UserId) (body2 : String) (now2 : Nat)
      (storeOk2 : Bool), getSocket s sid2 = some sock2 → sock2.connected = true →
      sock2.userId = some uid2 →
      messageSave ⟨sock2.username, body2, sock2.isAdmin, now2⟩ storeOk2 = true →
      (run s [.sendMessageStart sid ⟨some body⟩ now,
          .saveDone ⟨sock.username, body, sock.isAdmin, now⟩ storeOk,
          .sendMessageStart sid2 ⟨some body2⟩ now2,
          .saveDone ⟨sock2.username, body2, sock2.isAdmin, now2⟩ storeOk2]).messages
        = s.messages ++ [⟨sock.username, body, sock.isAdmin, now⟩,
            ⟨sock2.username, body2, sock2.isAdmin, now2⟩] ∧
      (run s [.sendMessageStart sid ⟨some body⟩ now,
          .saveDone ⟨sock.username, body, sock.isAdmin, now⟩ storeOk,
          .sendMessageStart sid2 ⟨some body2⟩ now2,
          .saveDone ⟨sock2.username, body2, sock2.isAdmin, now2⟩ storeOk2]).emitted
        = s.emitted ++ [⟨connectedIds s, .newMessage ⟨sock.username, body, sock.isAdmin, now⟩⟩,
            ⟨connectedIds s, .newMessage ⟨sock2.username, body2, sock2.isAdmin, now2⟩⟩]) := by
  refine ⟨?_, ?_, ?_, ?_, ?_⟩
  · intro hb
    simp [messageSave, validateMessage, hb] at hs
  · exact step_sendMessageStart s sid sock uid ⟨some body⟩ now hg hc hu
  · intro t user hnb hst hex
    cases hgt : getSocket t sid with
    | none => exact absurd hgt hex
    | some k =>
      have := getSocket_joinAdmit t sid k user hgt hnb
      rw [← hst, hg] at this
      have hsock := Option.some.inj this
      rw [hsock]
      exact ⟨rfl, rfl⟩
  · intro t hmem
    obtain ⟨hm, he, hp, -⟩ := step_saveDone_accepted t _ storeOk hmem hs
    exact ⟨hm, he, hp⟩
  · intro sid2 sock2 uid2 body2 now2 storeOk2 hg2 hc2 hu2 hs2
    obtain ⟨hm1, he1, hk1⟩ := handled_submit s sid sock uid body now storeOk hg hc hu hs
    have hg2' : getSocket (run s [.sendMessageStart sid ⟨some body⟩ now,
        .saveDone ⟨sock.username, body, sock.isAdmin, now⟩ storeOk]) sid2 = some sock2 := by
      unfold getSocket at hg2 ⊢
      rw [hk1]
      exact hg2
    obtain ⟨hm2, he2, -⟩ := handled_submit _ sid2 sock2 uid2 body2 now2 storeOk2 hg2' hc2 hu2 hs2
    have hrun : run s [.sendMessageStart sid ⟨some body⟩ now,
        .saveDone ⟨sock.username, body, sock.isAdmin, now⟩ storeOk,
        .sendMessageStart sid2 ⟨some body2⟩ now2,
        .saveDone ⟨sock2.username, body2, sock2.isAdmin, now2⟩ storeOk2]
        = run (run s [.sendMessageStart sid ⟨some body⟩ now,
            .saveDone ⟨sock.username, body, sock.isAdmin, now⟩ storeOk])
          [.sendMessageStart sid2 ⟨some body2⟩ now2,
            .saveDone ⟨sock2.username, body2, sock2.isAdmin, now2⟩ storeOk2] := rfl
    have hci : connectedIds (run s [.sendMessageStart sid ⟨some body⟩ now,
        .saveDone ⟨sock.username, body, sock.isAdmin, now⟩ storeOk]) = connectedIds s := by
      unfold connectedIds
      rw [hk1]
    rw [hrun, hm2, he2, hm1, he1, hci]
    simp

/-- C9, witness of `accepted_submit`: `alice`, joined on socket 10, submits
`hi`; the handler waits for the save, the store accepts the message, and the
message is persisted and broadcast. -/
theorem accepted_submit_witness :
    (step (step aliceOnline (.sendMessageStart 10 ⟨some "hi"⟩ 5))
        (.saveDone ⟨"alice", "hi", false, 5⟩ true)).messages
      = (step aliceOnline (.sendMessageStart 10 ⟨some "hi"⟩ 5)).messages
          ++ [⟨"alice", "hi", false, 5⟩] ∧
    (step (step aliceOnline (.sendMessageStart 10 ⟨some "hi"⟩ 5))
        (.saveDone ⟨"alice", "hi", false, 5⟩ true)).emitted
      = (step aliceOnline (.sendMessageStart 10 ⟨some "hi"⟩ 5)).emitted
          ++ [⟨connectedIds (step aliceOnline (.sendMessageStart 10 ⟨some "hi"⟩ 5)),
                .newMessage ⟨"alice", "hi", false, 5⟩⟩] :=
  have h := (accepted_submit aliceOnline 10 ⟨10, "10.0.0.1", true, some 1, "alice", false⟩ 1
    "hi" 5 true (by decide) rfl rfl (by decide)).2.2.2.1
    (step aliceOnline (.sendMessageStart 10 ⟨some "hi"⟩ 5)) (by decide)
  ⟨h.1, h.2.1⟩

/-! ## C10: a submit the store refuses -/

/-- C10, counterexample: `alice`, joined on socket 10, submits `hi` and the
store refuses the insert.  One line is logged, nothing is persisted and no
`newMessage` is emitted. -/
theorem store_failure_suppresses_broadcast :
    (sendMessage aliceOnline 10 ⟨some "hi"⟩ 5 false).errorLog
      = aliceOnline.errorLog ++ ["Erro ao salvar mensagem:"] ∧
    (sendMessage aliceOnline 10 ⟨some "hi"⟩ 5 false).emitted = aliceOnline.emitted ∧
    (sendMessage aliceOnline 10 ⟨some "hi"⟩ 5 false).messages = aliceOnline.messages := by
  decide

/-- C10, as amended: on a joined connection, when `message.save` fails the
failure is logged (one `console.error` line) and that is all: no `newMessage`
is emitted and nothing is persisted, because the broadcast follows `save`
inside the same `try` block. -/
theorem failed_save_logs_only (s : Server) (sid : SocketId) (sock : Socket) (uid : UserId)
    (messageData : MessageData) (now : Nat) (storeOk : Bool)
    (hg : getSocket s sid = some sock) (hu : sock.userId = some uid)
    (hs : messageSave ⟨sock.username, messageData.message.getD "", sock.isAdmin, now⟩ storeOk
      = false) :
    (sendMessage s sid messageData now storeOk).errorLog
      = s.errorLog ++ ["Erro ao salvar mensagem:"] ∧
    (sendMessage s sid messageData now storeOk).emitted = s.emitted ∧
    (sendMessage s sid messageData now storeOk).messages = s.messages := by
  rw [sendMessage_not_saved s sid sock uid messageData now storeOk hg hu hs]
  exact ⟨rfl, rfl, rfl⟩

/-- C10, witness of `failed_save_logs_only`: `alice` submits `hi` and the
store refuses the insert. -/
theorem failed_save_logs_only_witness :
    (sendMessage aliceOnline 10 ⟨some "hi"⟩ 5 false).emitted = aliceOnline.emitted :=
  (failed_save_logs_only aliceOnline 10 ⟨10, "10.0.0.1", true, some 1, "alice", false⟩ 1
    ⟨some "hi"⟩ 5 false (by decide) rfl (by decide)).2.1

/-! ## C11: the replay sent after a join -/

theorem joinReplayChain_eq (messages : List Message) :
    joinReplayChain messages = recentMessagesQuery messages := rfl

theorem length_insertByTimestamp (m : Message) (l : List Message) :
    (insertByTimestamp m l).length = l.length + 1 := by
  induction l with
  | nil => rfl
  | cons x rest ih =>
    unfold insertByTimestamp
    split
    · rfl
    · simp [ih]

theorem length_foldl_insertByTimestamp (ms acc : List Message) :
    (ms.foldl (fun acc m => insertByTimestamp m acc) acc).length = acc.length + ms.length := by
  induction ms generalizing acc with
  | nil => rfl
  | cons m rest ih =>
    simp only [List.foldl_cons, List.length_cons]
    rw [ih, length_insertByTimestamp]
    omega

theorem length_sortByTimestamp (ms : List Message) :
    (sortByTimestamp ms).length = ms.length := by
  unfold sortByTimestamp
  rw [length_foldl_insertByTimestamp]
  simp

theorem recentMessagesQuery_of_length_le (messages : List Message)
    (h : messages.length ≤ 50) :
    recentMessagesQuery messages = specReplay messages := by
  have hl := length_sortByTimestamp messages
  unfold recentMessagesQuery specReplay
  rw [List.take_of_length_le (by omega)]
  have : (sortByTimestamp messages).length - 50 = 0 := by omega
  rw [this]
  rfl

theorem joinReplay_recipients (s : Server) (sid : SocketId) (recent : List Message) :
    (joinReplay s sid (some recent)).emitted
      = s.emitted ++ [⟨(connectedIds s).filter (fun i => i == sid), .recentMessages recent⟩] ∧
    ∀ i ∈ (connectedIds s).filter (fun i => i == sid), i = sid := by
  refine ⟨rfl, ?_⟩
  intro i hi
  simpa using (List.mem_filter.mp hi).2

/-- C11, the code at the failing input: the store holds 51 messages with
timestamps 1 to 51.  The chain of lines 359-362, in which the second `sort`
replaces the first, runs as `sort({ timestamp: 1 }).limit(50)`: the replay sent
to the joining socket 10 is the 50 oldest messages (timestamps 1 to 50).  The
most recent message (timestamp 51) is missing and the oldest one is included,
whereas the 50 most recent messages, oldest first, are those with timestamps 2
to 51. -/
theorem replay_carries_oldest_fifty :
    store51.length = 51 ∧
    joinReplayChain store51 = store51.take 50 ∧
    specReplay store51 = store51.drop 1 ∧
    (⟨"alice", "m", false, 51⟩ : Message) ∉ joinReplayChain store51 ∧
    (⟨"alice", "m", false, 1⟩ : Message) ∈ joinReplayChain store51 ∧
    (run (init db [] store51) aliceJoins).emitted.getLast?
      = some ⟨[10], .recentMessages (store51.take 50)⟩ := by
  decide

/-! ## C12: running the `disconnect` handler twice -/

theorem mapDelete_of_not_mem (m : List (UserId × Presence)) (k : UserId)
    (h : k ∉ mapKeys m) : mapDelete m k = m := by
  induction m with
  | nil => rfl
  | cons e rest ih =>
    simp only [mapKeys, List.map_cons, List.mem_cons, not_or] at h
    have he : ¬ e.1 = k := fun h' => h.1 h'.symm
    have hrest : k ∉ mapKeys rest := h.2
    simp [mapDelete, he, ih hrest]

theorem disconnectHandler_sockets (s : Server) (sid : SocketId) :
    (disconnectHandler s sid).sockets = s.sockets := by
  unfold disconnectHandler
  split
  · rfl
  · split <;> rfl

theorem disconnectHandler_joined (s : Server) (sid : SocketId) (sock : Socket) (uid : UserId)
    (hg : getSocket s sid = some sock) (hu : sock.userId = some uid) :
    disconnectHandler s sid =
      ioEmit { s with connectedUsers := mapDelete s.connectedUsers uid }
        (.userOnline (mapValues (mapDelete s.connectedUsers uid))) := by
  unfold disconnectHandler
  simp only [hg, hu]

theorem disconnectHandler_unjoined (s : Server) (sid : SocketId) (sock : Socket)
    (hg : getSocket s sid = some sock) (hu : sock.userId = none) :
    disconnectHandler s sid = s := by
  unfold disconnectHandler
  simp only [hg, hu]

theorem socketDisconnect_idem (s : Server) (sid : SocketId) :
    socketDisconnect (socketDisconnect s sid) sid = socketDisconnect s sid := by
  cases hg : getSocket s sid with
  | none =>
    have h1 : socketDisconnect s sid = s := by
      unfold socketDisconnect
      simp only [hg]
    rw [h1, h1]
  | some sock =>
    by_cases hc : sock.connected = true
    · have hid : sock.id = sid := getSocket_id hg
      have hup := getSocket_updateSocket s sid sid (fun k => { k with connected := false })
        (fun _ => rfl)
      have h1 : socketDisconnect s sid
          = disconnectHandler (updateSocket s sid (fun k => { k with connected := false })) sid := by
        unfold socketDisconnect
        simp only [hg, hc, if_true]
      have hg' : getSocket (socketDisconnect s sid) sid = some { sock with connected := false } := by
        rw [h1]
        unfold getSocket
        rw [disconnectHandler_sockets]
        have : getSocket (updateSocket s sid (fun k => { k with connected := false })) sid
            = some { sock with connected := false } := by
          rw [hup, hg]
          simp [hid]
        exact this
      generalize socketDisconnect s sid = t at hg'
      unfold socketDisconnect
      simp only [hg']
      simp
    · have h1 : socketDisconnect s sid = s := by
        unfold socketDisconnect
        simp only [hg, hc]
        simp
      rw [h1, h1]

/-- C12, counterexample: socket 10 (joined as `alice`) is being closed while
socket 20 (joined as `bob`) is open.  One run of the `disconnect` handler of
socket 10 emits one `userOnline` broadcast; a second run emits the same
broadcast again, two in total. -/
theorem disconnectHandler_twice_emits_twice :
    (disconnectHandler aliceClosing 10).emitted
      = aliceClosing.emitted ++ [⟨[20], .userOnline [⟨"bob", false, 20⟩]⟩] ∧
    (disconnectHandler (disconnectHandler aliceClosing 10) 10).emitted
      = aliceClosing.emitted ++ [⟨[20], .userOnline [⟨"bob", false, 20⟩]⟩,
          ⟨[20], .userOnline [⟨"bob", false, 20⟩]⟩] := by
  decide

/-- C12, as amended: for every registry state (a map, so without duplicate
keys) and every connection, running the `disconnect` handler twice leaves the
same `connectedUsers` as running it once, and the model has no failing path
(no error); but the handler does not clear `socket.userId`, so for a joined
connection each run emits a `userOnline` broadcast of the roster after the
removal, two in total.  For a connection that never joined the handler changes
nothing and emits nothing.  Closing a connection twice is idempotent all the
same, because the library runs the handler only for a connection that is
still open. -/
theorem disconnectHandler_twice (s : Server) (sid : SocketId) (hn : NodupKeys s) :
    (disconnectHandler (disconnectHandler s sid) sid).connectedUsers
      = (disconnectHandler s sid).connectedUsers ∧
    (∀ sock uid, getSocket s sid = some sock → sock.userId = some uid →
      (disconnectHandler s sid).emitted = s.emitted ++
        [⟨connectedIds s, .userOnline (mapValues (mapDelete s.connectedUsers uid))⟩] ∧
      (disconnectHandler (disconnectHandler s sid) sid).emitted = s.emitted ++
        [⟨connectedIds s, .userOnline (mapValues (mapDelete s.connectedUsers uid))⟩,
         ⟨connectedIds s, .userOnline (mapValues (mapDelete s.connectedUsers uid))⟩]) ∧
    (∀ sock, getSocket s sid = some sock → sock.userId = none → disconnectHandler s sid = s) ∧
    socketDisconnect (socketDisconnect s sid) sid = socketDisconnect s sid := by
  have joined : ∀ sock uid, getSocket s sid = some sock → sock.userId = some uid →
      disconnectHandler (disconnectHandler s sid) sid =
        ioEmit (disconnectHandler s sid)
          (.userOnline (mapValues (mapDelete s.connectedUsers uid))) ∧
      (disconnectHandler s sid).connectedUsers = mapDelete s.connectedUsers uid := by
    intro sock uid hg hu
    have h1 := disconnectHandler_joined s sid sock uid hg hu
    have hg1 : getSocket (disconnectHandler s sid) sid = some sock := by
      unfold getSocket
      rw [disconnectHandler_sockets]
      exact hg
    have h2 := disconnectHandler_joined (disconnectHandler s sid) sid sock uid hg1 hu
    have hcu : (disconnectHandler s sid).connectedUsers = mapDelete s.connectedUsers uid := by
      rw [h1]; rfl
    have hdel : mapDelete (mapDelete s.connectedUsers uid) uid = mapDelete s.connectedUsers uid :=
      mapDelete_of_not_mem _ uid (not_mem_mapKeys_mapDelete _ uid hn)
    have key : ∀ t : Server, t.connectedUsers = mapDelete s.connectedUsers uid →
        ioEmit { t with connectedUsers := mapDelete t.connectedUsers uid }
          (.userOnline (mapValues (mapDelete t.connectedUsers uid)))
        = ioEmit t (.userOnline (mapValues (mapDelete s.connectedUsers uid))) := by
      intro t ht
      cases t
      simp only at ht
      subst ht
      simp only [hdel]
    refine ⟨?_, hcu⟩
    rw [h2]
    exact key _ hcu
  refine ⟨?_, ?_, ?_, socketDisconnect_idem s sid⟩
  · cases hg : getSocket s sid with
    | none =>
      have h1 : disconnectHandler s sid = s := by
        unfold disconnectHandler
        simp only [hg]
      rw [h1, h1]
    | some sock =>
      cases hu : sock.userId with
      | none =>
        have h1 := disconnectHandler_unjoined s sid sock hg hu
        rw [h1, h1]
      | some uid =>
        rw [(joined sock uid hg hu).1]
        rfl
  · intro sock uid hg hu
    have h1 := disconnectHandler_joined s sid sock uid hg hu
    constructor
    · rw [h1]; rfl
    · rw [(joined sock uid hg hu).1, h1]
      simp only [ioEmit_emitted, List.append_assoc, List.cons_append, List.nil_append]
      rfl
  · intro sock hg hu
    exact disconnectHandler_unjoined s sid sock hg hu

/-- C12, witness of `disconnectHandler_twice`: the handler of socket 10 in
`aliceClosing`. -/
theorem disconnectHandler_twice_witness :
    (disconnectHandler (disconnectHandler aliceClosing 10) 10).connectedUsers
      = (disconnectHandler aliceClosing 10).connectedUsers :=
  (disconnectHandler_twice aliceClosing 10 (by unfold NodupKeys; decide)).1

/-! ## C13: one roster broadcast per membership change -/

theorem mem_mapValues_mapSet (m : List (UserId × Presence)) (k : UserId) (v : Presence) :
    v ∈ mapValues (mapSet m k v) := by
  induction m with
  | nil => simp [mapSet, mapValues]
  | cons e rest ih =>
    by_cases he : e.1 = k
    · simp [mapSet, mapValues, he]
    · simp only [mapValues] at ih
      simp [mapSet, mapValues, he, ih]

theorem connectedIds_of_sockets_eq {s t : Server} (h : t.sockets = s.sockets) :
    connectedIds t = connectedIds s := by
  unfold connectedIds
  rw [h]

theorem connectedIds_joinAdmit (s : Server) (sid : SocketId) (user : User)
    (hb : user.isBanned = false) :
    connectedIds (joinAdmit s sid (some (some user))) = connectedIds s := by
  rw [connectedIds_of_sockets_eq (joinAdmit_admitted s sid user hb).2.1]
  exact connectedIds_updateSocket s sid _ (fun _ => rfl) (fun _ => rfl)

theorem socketDisconnect_joined (s : Server) (sid : SocketId) (sock : Socket) (uid : UserId)
    (hg : getSocket s sid = some sock) (hc : sock.connected = true)
    (hu : sock.userId = some uid) :
    socketDisconnect s sid =
      ioEmit { updateSocket s sid (fun k => { k with connected := false }) with
          connectedUsers := mapDelete s.connectedUsers uid }
        (.userOnline (mapValues (mapDelete s.connectedUsers uid))) := by
  have hid : sock.id = sid := getSocket_id hg
  have hup := getSocket_updateSocket s sid sid (fun k => { k with connected := false })
    (fun _ => rfl)
  have hg' : getSocket (updateSocket s sid (fun k => { k with connected := false })) sid
      = some { sock with connected := false } := by
    rw [hup, hg]
    simp [hid]
  unfold socketDisconnect
  simp only [hg, hc, if_true]
  rw [disconnectHandler_joined _ sid { sock with connected := false } uid hg' hu]
  rfl

/-- C13: in every reachable state, a successful join emits exactly one
`userOnline` event, whose payload is the list of `connectedUsers` values after
the insertion, and that list contains the entry of the joining account; the
only other emission of the handler is the `recentMessages` replay.  The
disconnect of a joined connection emits exactly one `userOnline` event, whose
payload is the list of values after the deletion, and the map then has no
entry for that connection's account. -/
theorem membership_change_broadcasts_once (s : Server) (hr : Reachable s) :
    (∀ sid user, user.isBanned = false →
      (joinAdmit s sid (some (some user))).connectedUsers
        = mapSet s.connectedUsers user.id ⟨user.username, user.isAdmin, sid⟩ ∧
      (joinAdmit s sid (some (some user))).emitted = s.emitted ++
        [⟨connectedIds s,
          .userOnline (mapValues (joinAdmit s sid (some (some user))).connectedUsers)⟩] ∧
      (⟨user.username, user.isAdmin, sid⟩ : Presence)
        ∈ mapValues (joinAdmit s sid (some (some user))).connectedUsers ∧
      ∀ recent, (joinReplay (joinAdmit s sid (some (some user))) sid (some recent)).emitted
        = s.emitted ++
          [⟨connectedIds s,
            .userOnline (mapValues (joinAdmit s sid (some (some user))).connectedUsers)⟩,
           ⟨(connectedIds s).filter (fun i => i == sid), .recentMessages recent⟩]) ∧
    (∀ sid sock uid, getSocket s sid = some sock → sock.connected = true →
      sock.userId = some uid →
      (step s (.disconnect sid)).connectedUsers = mapDelete s.connectedUsers uid ∧
      (step s (.disconnect sid)).emitted = s.emitted ++
        [⟨connectedIds (step s (.disconnect sid)),
          .userOnline (mapValues (step s (.disconnect sid)).connectedUsers)⟩] ∧
      uid ∉ mapKeys (step s (.disconnect sid)).connectedUsers) := by
  constructor
  · intro sid user hb
    obtain ⟨hcu, -, hem, -, -, -⟩ := joinAdmit_admitted s sid user hb
    refine ⟨hcu, ?_, ?_, ?_⟩
    · rw [hem, hcu]
    · rw [hcu]
      exact mem_mapValues_mapSet _ _ _
    · intro recent
      rw [(joinReplay_recipients _ sid recent).1, connectedIds_joinAdmit s sid user hb, hem, hcu]
      simp
  · intro sid sock uid hg hc hu
    have h1 : step s (.disconnect sid) = socketDisconnect s sid := rfl
    rw [h1, socketDisconnect_joined s sid sock uid hg hc hu]
    refine ⟨rfl, rfl, ?_⟩
    exact not_mem_mapKeys_mapDelete _ uid (nodupKeys_of_reachable hr)

/-- C13, witness of `membership_change_broadcasts_once`: socket 10, joined as
`alice`, disconnects. -/
theorem membership_change_broadcasts_once_witness :
    (step aliceOnline (.disconnect 10)).emitted = aliceOnline.emitted ++
      [⟨connectedIds (step aliceOnline (.disconnect 10)),
        .userOnline (mapValues (step aliceOnline (.disconnect 10)).connectedUsers)⟩] :=
  ((membership_change_broadcasts_once aliceOnline ⟨db, [], [], aliceJoins, rfl⟩).2 10
    ⟨10, "10.0.0.1", true, some 1, "alice", false⟩ 1 (by decide) rfl rfl).2.1

/-! ## C14: who receives a broadcast -/

theorem socketIds_of_sockets_eq {s t : Server} (h : t.sockets = s.sockets) :
    socketIds t = socketIds s := by
  unfold socketIds
  rw [h]

theorem socketIds_updateSocket (s : Server) (sid : SocketId) (f : Socket → Socket)
    (hid : ∀ k, (f k).id = k.id) : socketIds (updateSocket s sid f) = socketIds s := by
  unfold socketIds updateSocket
  simp only [List.map_map]
  apply List.map_congr_left
  intro k _
  simp only [Function.comp]
  split
  · exact hid k
  · rfl

theorem socketIds_socketDisconnect (s : Server) (sid : SocketId) :
    socketIds (socketDisconnect s sid) = socketIds s := by
  unfold socketDisconnect
  split
  · rfl
  · split
    · rw [socketIds_of_sockets_eq (disconnectHandler_sockets _ sid)]
      exact socketIds_updateSocket s sid _ (fun _ => rfl)
    · rfl

theorem socketIds_joinStart (s : Server) (sid : SocketId) (token : Token) :
    socketIds (joinStart s sid token) = socketIds s := by
  unfold joinStart
  split
  · exact socketIds_socketDisconnect s sid
  · rfl

theorem socketIds_joinAdmit (s : Server) (sid : SocketId) (lookup : Option (Option User)) :
    socketIds (joinAdmit s sid lookup) = socketIds s := by
  unfold joinAdmit
  split
  · exact socketIds_socketDisconnect s sid
  · exact socketIds_socketDisconnect s sid
  · split
    · exact socketIds_socketDisconnect s sid
    · exact socketIds_updateSocket s sid _ (fun _ => rfl)

theorem socketIds_joinReplay (s : Server) (sid : SocketId) (result : Option (List Message)) :
    socketIds (joinReplay s sid result) = socketIds s := by
  unfold joinReplay
  split
  · exact socketIds_socketDisconnect s sid
  · rfl

theorem sendMessage_sockets (s : Server) (sid : SocketId) (messageData : MessageData)
    (now : Nat) (storeOk : Bool) :
    (sendMessage s sid messageData now storeOk).sockets = s.sockets := by
  unfold sendMessage
  split
  · rfl
  · split
    · rfl
    · unfold sendMessageSaved
      split <;> rfl

theorem banUser_sockets (s : Server) (auth : Option Token) (body : BanRequest)
    (now : Nat) (saveOk : Bool) :
    (banUser s auth body now saveOk).1.sockets = s.sockets := by
  unfold banUser
  split
  · rfl
  · split
    · rfl
    · split
      · rfl
      · split <;> rfl

theorem not_mem_socketIds_of_getSocket_none {s : Server} {sid : SocketId}
    (h : getSocket s sid = none) : sid ∉ socketIds s := by
  unfold getSocket at h
  rw [List.find?_eq_none] at h
  unfold socketIds
  intro hmem
  obtain ⟨k, hk, hid⟩ := List.mem_map.mp hmem
  exact h k hk (by simpa using hid)

theorem nodupSocketIds_step (s : Server) (e : Event) (h : NodupSocketIds s) :
    NodupSocketIds (step s e) := by
  unfold NodupSocketIds at h ⊢
  cases e with
  | connection sid address =>
    simp only [step]
    split
    · exact h
    · rename_i hnone
      have hg : getSocket s sid = none := by
        cases hs : getSocket s sid with
        | none => rfl
        | some k => simp [hs] at hnone
      have hids : socketIds (connection s sid address) = socketIds s ++ [sid] := by
        simp [socketIds, connection]
      rw [hids]
      exact List.Nodup.append h (List.nodup_singleton sid)
        (by simpa using not_mem_socketIds_of_getSocket_none hg)
  | join sid token =>
    simp only [step]
    split
    · rw [socketIds_joinStart]; exact h
    · exact h
  | lookupDone sid id ok =>
    simp only [step]
    split
    · rw [socketIds_joinAdmit]; exact h
    · exact h
  | replayDone sid ok =>
    simp only [step]
    split
    · rw [socketIds_joinReplay]; exact h
    · exact h
  | sendMessage sid messageData now storeOk =>
    simp only [step]
    split
    · rw [socketIds_of_sockets_eq (sendMessage_sockets s sid messageData now storeOk)]; exact h
    · exact h
  | sendMessageStart sid messageData now =>
    simp only [step]
    split
    · rw [socketIds_of_sockets_eq (sendMessageStart_frame s sid messageData now).2.1]; exact h
    · exact h
  | saveDone message storeOk =>
    simp only [step]
    split
    · rw [socketIds_of_sockets_eq (sendMessageSaved_frame _ message storeOk).2]; exact h
    · exact h
  | disconnect sid =>
    simp only [step]
    rw [socketIds_socketDisconnect]; exact h
  | banUser auth body now saveOk =>
    simp only [step]
    rw [socketIds_of_sockets_eq (banUser_sockets s auth body now saveOk)]; exact h
  | login clientIp body now saveOk validPassword =>
    simp only [step]
    rw [socketIds_of_sockets_eq (login_frame s clientIp body now saveOk validPassword).2.1]
    exact h

theorem nodupSocketIds_run (events : List Event) (s : Server) (h : NodupSocketIds s) :
    NodupSocketIds (run s events) := by
  induction events generalizing s with
  | nil => exact h
  | cons e rest ih => exact ih (step s e) (nodupSocketIds_step s e h)

theorem nodupSocketIds_of_reachable {s : Server} (h : Reachable s) : NodupSocketIds s := by
  obtain ⟨users, ipBans, messages, events, rfl⟩ := h
  exact nodupSocketIds_run events _ (by simp [NodupSocketIds, socketIds, init])

theorem reachable_step {s : Server} (h : Reachable s) (e : Event) : Reachable (step s e) := by
  obtain ⟨users, ipBans, messages, events, rfl⟩ := h
  exact ⟨users, ipBans, messages, events ++ [e], by simp [run, List.foldl_append]⟩

theorem mem_connectedIds_iff_isOpen {s : Server} (h : NodupSocketIds s) (sid : SocketId) :
    sid ∈ connectedIds s ↔ isOpen s sid = true := by
  constructor
  · intro hmem
    simp only [connectedIds, List.mem_map, List.mem_filter] at hmem
    obtain ⟨k, ⟨hk, hc⟩, hid⟩ := hmem
    cases hg : getSocket s sid with
    | none =>
      exfalso
      exact not_mem_socketIds_of_getSocket_none hg (List.mem_map.mpr ⟨k, hk, hid⟩)
    | some k' =>
      have hk' : k' ∈ s.sockets := getSocket_mem hg
      have hid' : k'.id = sid := getSocket_id hg
      have : k = k' := List.inj_on_of_nodup_map h hk hk' (by rw [hid, hid'])
      simp [isOpen, hg, ← this, hc]
  · exact mem_connectedIds_of_isOpen

theorem broadcastsToOpen_same {old : List Emit} {t : Server} (h : t.emitted = old) :
    BroadcastsToOpen old t :=
  ⟨[], by simp [h], by simp⟩

theorem broadcastsToOpen_ioEmit {old : List Emit} (u : Server) (p : Payload)
    (h : u.emitted = old) : BroadcastsToOpen old (ioEmit u p) := by
  refine ⟨[⟨connectedIds u, p⟩], by rw [← h]; rfl, ?_⟩
  intro em hem _
  rw [List.mem_singleton.mp hem]
  rfl

theorem broadcastsToOpen_disconnectHandler (s : Server) (sid : SocketId) :
    BroadcastsToOpen s.emitted (disconnectHandler s sid) := by
  unfold disconnectHandler
  split
  · exact broadcastsToOpen_same rfl
  · split
    · exact broadcastsToOpen_same rfl
    · exact broadcastsToOpen_ioEmit _ _ rfl

theorem broadcastsToOpen_socketDisconnect (s : Server) (sid : SocketId) :
    BroadcastsToOpen s.emitted (socketDisconnect s sid) := by
  unfold socketDisconnect
  split
  · exact broadcastsToOpen_same rfl
  · split
    · exact broadcastsToOpen_disconnectHandler
        (updateSocket s sid (fun k => { k with connected := false })) sid
    · exact broadcastsToOpen_same rfl

theorem broadcastsToOpen_joinStart (s : Server) (sid : SocketId) (token : Token) :
    BroadcastsToOpen s.emitted (joinStart s sid token) := by
  unfold joinStart
  split
  · exact broadcastsToOpen_socketDisconnect s sid
  · exact broadcastsToOpen_same rfl

theorem broadcastsToOpen_joinAdmit (s : Server) (sid : SocketId)
    (lookup : Option (Option User)) :
    BroadcastsToOpen s.emitted (joinAdmit s sid lookup) := by
  match lookup with
  | none => exact broadcastsToOpen_socketDisconnect s sid
  | some none => exact broadcastsToOpen_socketDisconnect s sid
  | some (some user) =>
    by_cases hb : user.isBanned = true
    · unfold joinAdmit
      simp only [hb, if_true]
      exact broadcastsToOpen_socketDisconnect s sid
    · have hb' : user.isBanned = false := by simpa using hb
      rw [joinAdmit_eq s sid user hb']
      refine ⟨[⟨connectedIds (updateSocket s sid (fun k =>
          { k with userId := some user.id, username := user.username,
                   isAdmin := user.isAdmin })), _⟩], rfl, ?_⟩
      intro em hem _
      rw [List.mem_singleton.mp hem]
      rfl

theorem broadcastsToOpen_joinReplay (s : Server) (sid : SocketId)
    (result : Option (List Message)) :
    BroadcastsToOpen s.emitted (joinReplay s sid result) := by
  match result with
  | none => exact broadcastsToOpen_socketDisconnect s sid
  | some recent =>
    refine ⟨[⟨(connectedIds s).filter (fun i => i == sid), .recentMessages recent⟩], rfl, ?_⟩
    intro em hem hb
    rw [List.mem_singleton.mp hem] at hb
    simp [isChatBroadcast] at hb

theorem broadcastsToOpen_sendMessageSaved {old : List Emit} (s : Server) (message : Message)
    (storeOk : Bool) (h : s.emitted = old) :
    BroadcastsToOpen old (sendMessageSaved s message storeOk) := by
  unfold sendMessageSaved
  split
  · exact broadcastsToOpen_ioEmit _ _ h
  · exact broadcastsToOpen_same h

theorem broadcastsToOpen_sendMessage (s : Server) (sid : SocketId) (messageData : MessageData)
    (now : Nat) (storeOk : Bool) :
    BroadcastsToOpen s.emitted (sendMessage s sid messageData now storeOk) := by
  unfold sendMessage
  split
  · exact broadcastsToOpen_same rfl
  · split
    · exact broadcastsToOpen_same rfl
    · exact broadcastsToOpen_sendMessageSaved s _ storeOk rfl

theorem broadcastsToOpen_banUser (s : Server) (auth : Option Token) (body : BanRequest)
    (now : Nat) (saveOk : Bool) :
    BroadcastsToOpen s.emitted (banUser s auth body now saveOk).1 := by
  unfold banUser
  split
  · exact broadcastsToOpen_same rfl
  · split
    · exact broadcastsToOpen_same rfl
    · split
      · exact broadcastsToOpen_same rfl
      · split
        · exact broadcastsToOpen_ioEmit _ _ rfl
        · exact broadcastsToOpen_same rfl

theorem broadcastsToOpen_step (s : Server) (e : Event) :
    BroadcastsToOpen s.emitted (step s e) := by
  cases e with
  | connection sid address =>
    simp only [step]
    split
    · exact broadcastsToOpen_same rfl
    · exact broadcastsToOpen_same rfl
  | join sid token =>
    simp only [step]
    split
    · exact broadcastsToOpen_joinStart s sid token
    · exact broadcastsToOpen_same rfl
  | lookupDone sid id ok =>
    simp only [step]
    split
    · exact broadcastsToOpen_joinAdmit
        { s with pendingLookups := s.pendingLookups.erase (sid, id) } sid _
    · exact broadcastsToOpen_same rfl
  | replayDone sid ok =>
    simp only [step]
    split
    · exact broadcastsToOpen_joinReplay
        { s with pendingReplays := s.pendingReplays.erase sid } sid _
    · exact broadcastsToOpen_same rfl
  | sendMessage sid messageData now storeOk =>
    simp only [step]
    split
    · exact broadcastsToOpen_sendMessage s sid messageData now storeOk
    · exact broadcastsToOpen_same rfl
  | sendMessageStart sid messageData now =>
    simp only [step]
    split
    · exact broadcastsToOpen_same (sendMessageStart_frame s sid messageData now).2.2.1
    · exact broadcastsToOpen_same rfl
  | saveDone message storeOk =>
    simp only [step]
    split
    · exact broadcastsToOpen_sendMessageSaved _ message storeOk rfl
    · exact broadcastsToOpen_same rfl
  | disconnect sid => exact broadcastsToOpen_socketDisconnect s sid
  | banUser auth body now saveOk => exact broadcastsToOpen_banUser s auth body now saveOk
  | login clientIp body now saveOk validPassword =>
    exact broadcastsToOpen_same (login_frame s clientIp body now saveOk validPassword).2.2

/-- C14, counterexample: socket 10 is joined as `alice`; socket 20 is open and
has never joined, so the registry holds only socket 10.  The `newMessage` of a
submit by `alice` goes to sockets 10 and 20, and when socket 10 disconnects the
`userOnline` broadcast goes to socket 20.  In `aliceTwice` the entry written by
socket 10 has been replaced by that of socket 20, and socket 10 still receives
the next `newMessage`. -/
theorem unjoined_connection_receives_broadcasts :
    (getSocket aliceAndGuest 20).map (fun k => (k.connected, k.userId)) = some (true, none) ∧
    (mapValues aliceAndGuest.connectedUsers).map (fun v => v.socketId) = [10] ∧
    (step aliceAndGuest (.sendMessage 10 ⟨some "hi"⟩ 5 true)).emitted
      = aliceAndGuest.emitted ++ [⟨[10, 20], .newMessage ⟨"alice", "hi", false, 5⟩⟩] ∧
    (step aliceAndGuest (.disconnect 10)).emitted
      = aliceAndGuest.emitted ++ [⟨[20], .userOnline []⟩] ∧
    (mapValues aliceTwice.connectedUsers).map (fun v => v.socketId) = [20] ∧
    ((step aliceTwice (.sendMessage 20 ⟨some "hi"⟩ 5 true)).emitted.getLast?).map
      (fun em => em.recipients) = some [10, 20] := by
  decide

/-- C14, as amended: in every reachable state, whatever happens next, every
`newMessage` and every `userOnline` that is emitted goes to exactly the
connections that are open at that moment, and a connection is among them if
and only if its socket exists and is connected: whether it has joined, and
whether `connectedUsers` has an entry with its socket id, plays no part.  A
closed connection receives no broadcast. -/
theorem broadcasts_reach_open_connections (s : Server) (hr : Reachable s) (e : Event) :
    (∃ news, (step s e).emitted = s.emitted ++ news ∧
      ∀ em ∈ news, isChatBroadcast em.payload = true →
        em.recipients = connectedIds (step s e)) ∧
    (∀ sid, sid ∈ connectedIds (step s e) ↔ isOpen (step s e) sid = true) ∧
    (∀ sid, isOpen (step s e) sid = false → sid ∉ connectedIds (step s e)) := by
  have hn : NodupSocketIds (step s e) := nodupSocketIds_of_reachable (reachable_step hr e)
  refine ⟨broadcastsToOpen_step s e, fun sid => mem_connectedIds_iff_isOpen hn sid, ?_⟩
  intro sid hclosed hmem
  rw [(mem_connectedIds_iff_isOpen hn sid).mp hmem] at hclosed
  exact Bool.noConfusion hclosed

/-- C14, witness of `broadcasts_reach_open_connections`: in `aliceAndGuest`,
`alice` submits a message; socket 20, open and not joined, is a recipient. -/
theorem broadcasts_reach_open_connections_witness :
    20 ∈ connectedIds (step aliceAndGuest (.sendMessage 10 ⟨some "hi"⟩ 5 true)) ↔
      isOpen (step aliceAndGuest (.sendMessage 10 ⟨some "hi"⟩ 5 true)) 20 = true :=
  (broadcasts_reach_open_connections aliceAndGuest ⟨db, [], [], _, rfl⟩
    (.sendMessage 10 ⟨some "hi"⟩ 5 true)).2.1 20

/-! ## C15: bans at login -/

theorem findById_saveUser (users : List User) (u : User)
    (h : ∃ v ∈ users, v.id = u.id) : findById (saveUser users u) u.id = some u := by
  induction users with
  | nil => simp at h
  | cons v rest ih =>
    by_cases hv : v.id = u.id
    · simp [findById, saveUser, hv]
    · have hrest : ∃ w ∈ rest, w.id = u.id := by
        obtain ⟨w, hw, hid⟩ := h
        rcases List.mem_cons.mp hw with rfl | hw'
        · exact absurd hid hv
        · exact ⟨w, hw', hid⟩
      have := ih hrest
      simp only [findById, saveUser] at this
      simp [findById, saveUser, hv, this]

/-- C15: for an existing user with `isBanned` set and a non-null `banExpires`,
the login handler at time `now` answers as follows.  When `now < banExpires`:
403 with error `Conta banida`, the stored `banReason` and `banExpires`, no
token, and the state (the user record included) unchanged.  When
`now >= banExpires` and the save succeeds: the record is saved with `isBanned`
false, `banReason` empty and `banExpires` null, and the answer is that of the
password check on the cleared record, which is the answer the password check
gives for the record as it was; a user whose flag is not set gets the answer
of the same password check, with the state unchanged. -/
theorem login_ban_handling (s : Server) (body : LoginRequest) (now : Nat) (user : User)
    (banExpires : Nat) (validPassword : Bool)
    (hf : findOneByUsername s.users body.username = some user)
    (hb : user.isBanned = true) (he : user.banExpires = some banExpires) :
    (now < banExpires → ∀ saveOk,
      loginHandler s body now saveOk validPassword
        = (s, ⟨403, "Conta banida", some user.banReason, some banExpires, none, none⟩)) ∧
    (banExpires ≤ now →
      loginHandler s body now true validPassword
        = ({ s with users := saveUser s.users (clearBan user) },
           loginPasswordCheck (clearBan user) validPassword) ∧
      findById (loginHandler s body now true validPassword).1.users user.id
        = some (clearBan user) ∧
      ((clearBan user).isBanned = false ∧ (clearBan user).banReason = "" ∧
        (clearBan user).banExpires = none) ∧
      loginPasswordCheck (clearBan user) validPassword
        = loginPasswordCheck user validPassword) ∧
    (∀ (t : Server) (other : User) (saveOk : Bool),
      findOneByUsername t.users body.username = some other → other.isBanned = false →
      loginHandler t body now saveOk validPassword
        = (t, loginPasswordCheck other validPassword)) := by
  refine ⟨?_, ?_, ?_⟩
  · intro hlt saveOk
    unfold loginHandler
    simp only [hf, hb, he, hlt, if_true]
  · intro hle
    have hnlt : ¬ now < banExpires := by omega
    have h1 : loginHandler s body now true validPassword
        = ({ s with users := saveUser s.users (clearBan user) },
           loginPasswordCheck (clearBan user) validPassword) := by
      unfold loginHandler
      simp only [hf, hb, he, hnlt, hle, if_true, if_false]
    refine ⟨h1, ?_, ⟨rfl, rfl, rfl⟩, rfl⟩
    rw [h1]
    have hmem : user ∈ s.users := List.mem_of_find?_eq_some hf
    exact findById_saveUser s.users (clearBan user) ⟨user, hmem, rfl⟩
  · intro t other saveOk hft hnb
    unfold loginHandler
    simp only [hft, hnb, Bool.false_eq_true, if_false]

/-- C15, witness of `login_ban_handling`: `dave`, banned until time 9000, logs
in at time 5000. -/
theorem login_ban_handling_witness :
    loginHandler (init (dave :: db) [] []) ⟨"dave", "secret"⟩ 5000 true true
      = (init (dave :: db) [] [], ⟨403, "Conta banida", some "flood", some 9000, none, none⟩) :=
  (login_ban_handling (init (dave :: db) [] []) ⟨"dave", "secret"⟩ 5000 dave 9000 true
    (by decide) rfl rfl).1 (by decide) true

/-! ## C16: a connection that has not joined cannot post -/

/-- C16: on a connection on which no join has succeeded (`socket.userId`
unset), the `sendMessage` handler returns at once whatever the payload, the
clock and the store: the state is unchanged, so no Message is persisted, no
`newMessage` is emitted and `connectedUsers` is as before. -/
theorem unjoined_cannot_post (s : Server) (sid : SocketId) (sock : Socket)
    (messageData : MessageData) (now : Nat) (storeOk : Bool)
    (hg : getSocket s sid = some sock) (hu : sock.userId = none) :
    sendMessage s sid messageData now storeOk = s ∧
    (sendMessage s sid messageData now storeOk).messages = s.messages ∧
    (sendMessage s sid messageData now storeOk).emitted = s.emitted ∧
    (sendMessage s sid messageData now storeOk).connectedUsers = s.connectedUsers := by
  have h : sendMessage s sid messageData now storeOk = s := by
    unfold sendMessage
    simp only [hg, hu]
  rw [h]
  exact ⟨rfl, rfl, rfl, rfl⟩

/-- C16, witness of `unjoined_cannot_post`: socket 20 is connected, has not
joined, and emits `sendMessage`. -/
theorem unjoined_cannot_post_witness :
    sendMessage aliceAndGuest 20 ⟨some "hi"⟩ 5 true = aliceAndGuest :=
  (unjoined_cannot_post aliceAndGuest 20 ⟨20, "10.0.0.2", true, none, "", false⟩
    ⟨some "hi"⟩ 5 true (by decide) rfl).1

end ChatGlobal
